import Mathlib

/-!
# Static IP reconciliation for vSphere machines and HAProxy load balancers

A shallow embedding of `controllers/vspheremachine_controller.go` and
`controllers/haproxyloadbalancer_controller.go`.

* Go values that are passed by value (`dev` in `for i, dev := range devices`)
  are Lean values; the in-memory object of a pass is returned explicitly.
* Every call to a collaborator (object-store client, IPAM provider) is a
  step function on an abstract world state `σ`; each call is recorded, with
  its result, in a log of `Event`s.
* A Go run-time panic is the result `none`.
-/

namespace StaticIP

/-! ## Data model -/

/-- A non-nil Go `error`, represented by its message. -/
abbrev Err := String

/-- A Go `map[string]string`. -/
abbrev Labels := AList (fun _ : String => String)

/-- The `time.Duration` type of Go, in nanoseconds. -/
abbrev Duration := Nat

/-- The constant `time.Second`. -/
def Second : Duration := 1000000000

/-- The type `ctrl.Result` of controller-runtime. -/
structure Result where
  Requeue : Bool := false
  RequeueAfter : Duration := 0
deriving DecidableEq, Repr

/-- The type `infrav1.NetworkRouteSpec`. -/
structure NetworkRouteSpec where
  To : String
  Via : String
  Metric : Int
deriving DecidableEq, Repr

/-- The type `infrav1.NetworkDeviceSpec` (declared in cluster-api-provider-vsphere). -/
structure NetworkDeviceSpec where
  NetworkName : String
  DeviceName : String
  DHCP4 : Bool
  DHCP6 : Bool
  Gateway4 : String
  Gateway6 : String
  IPAddrs : List String
  MTU : Option Int
  MACAddr : String
  Nameservers : List String
  Routes : List NetworkRouteSpec
  SearchDomains : List String
deriving DecidableEq, Repr

/-- The fields of `metav1.ObjectMeta` that the controllers read. -/
structure ObjectMeta where
  Name : String
  Namespace : String
  Labels : Labels

/-- An `infrav1.VSphereMachine`; `Devices` is
`Spec.VirtualMachineCloneSpec.Network.Devices`. -/
structure VSphereMachine where
  ObjectMeta : ObjectMeta
  Devices : List NetworkDeviceSpec

/-- An `infrav1.HAProxyLoadBalancer`; `Devices` is
`Spec.VirtualMachineConfiguration.Network.Devices`. -/
structure HAProxyLoadBalancer where
  ObjectMeta : ObjectMeta
  Devices : List NetworkDeviceSpec

/-- An `infrav1.VSphereMachineTemplate`. -/
structure VSphereMachineTemplate where
  ObjectMeta : ObjectMeta

/-- A `v1alpha3.KubeadmControlPlane`; `InfrastructureTemplate` is
`Spec.InfrastructureTemplate.Name`. -/
structure KubeadmControlPlane where
  Name : String
  InfrastructureTemplate : String

/-- The type `types.NamespacedName`. -/
structure NamespacedName where
  Namespace : String
  Name : String

/-- Modelled from the spec: the `ipam.IPPool` interface of `pkg/ipam` (not under
`src/`), an address pool with labels and pool-level metadata: gateway,
nameserver list, search-domain list, prefix length. -/
structure IPPool where
  Name : String
  Labels : Labels
  Gateway : String
  Nameservers : List String
  SearchDomains : List String
  Prefix : Int

/-- Modelled from the spec: the `ipam.IPAddress` interface of `pkg/ipam` (not
under `src/`), the fulfilled result of a claim: value, prefix length, derived
gateway. -/
structure IPAddress where
  Name : String
  Address : String
  Prefix : Int
  Gateway : String

/-- A provisioning object, as passed where Go takes a `runtime.Object`. -/
inductive Object where
  | VSphereMachine (m : VSphereMachine)
  | HAProxyLoadBalancer (lb : HAProxyLoadBalancer)

/-- The `ObjectMeta` of a provisioning object. -/
def Object.Meta : Object → ObjectMeta
  | .VSphereMachine m => m.ObjectMeta
  | .HAProxyLoadBalancer lb => lb.ObjectMeta

/-- The device list of a provisioning object. -/
def Object.Devices : Object → List NetworkDeviceSpec
  | .VSphereMachine m => m.Devices
  | .HAProxyLoadBalancer lb => lb.Devices

/-- The assignment `obj.Spec.….Network.Devices = devices`. -/
def Object.setDevices (devices : List NetworkDeviceSpec) : Object → Object
  | .VSphereMachine m => .VSphereMachine { m with Devices := devices }
  | .HAProxyLoadBalancer lb => .HAProxyLoadBalancer { lb with Devices := devices }

/-! ## Helpers of `pkg/util` and `pkg/ipam` -/

/-- The helpers of `pkg/util`, `pkg/ipam` and cluster-api-provider-vsphere whose
bodies are not under `src/`; the controllers are verified for every choice of
them. -/
structure Util where
  /-- The function `util.IsDeviceIPAllocationDHCP`: the device is in `dhcp` mode. -/
  IsDeviceIPAllocationDHCP : NetworkDeviceSpec → Bool
  /-- The function `util.GetFormattedClaimName`. -/
  GetFormattedClaimName : String → Nat → String
  /-- The function `util.ValidateIP`; `none` is a nil error. -/
  ValidateIP : IPAddress → Option Err
  /-- The function `infrautilv1.IsControlPlaneMachine`. -/
  IsControlPlaneMachine : VSphereMachine → Bool
  /-- The constant `ipam.ClusterNameKey`. -/
  ClusterNameKey : String

/-- Modelled from the spec: `util.IsMachineIPAllocationDHCP` (not under `src/`),
the object-level DHCP shortcut: every device's mode is `dhcp`. -/
def IsMachineIPAllocationDHCP (u : Util) (devices : List NetworkDeviceSpec) : Bool :=
  devices.all u.IsDeviceIPAllocationDHCP

/-- Modelled from the spec: `util.GetObjLabels` (not under `src/`), the
object's own labels. -/
def GetObjLabels (m : ObjectMeta) : Labels := m.Labels

/-- Modelled from the spec: `util.GetAddress` (not under `src/`), the value of
the address. -/
def GetAddress (ip : IPAddress) : String := ip.Address

/-- Modelled from the spec: `util.GetMask` (not under `src/`), the prefix
length of the address. -/
def GetMask (ip : IPAddress) : Int := ip.Prefix

/-- Modelled from the spec: `util.GetGateway` (not under `src/`), the gateway
derived from the address. -/
def GetGateway (ip : IPAddress) : String := ip.Gateway

/-- Modelled from the spec: `util.GetDNSServers` (not under `src/`), the
nameserver list of the pool. -/
def GetDNSServers (pool : IPPool) : List String := pool.Nameservers

/-- Modelled from the spec: `util.GetSearchDomains` (not under `src/`), the
search-domain list of the pool. -/
def GetSearchDomains (pool : IPPool) : List String := pool.SearchDomains

/-- The call `errors.Wrapf(err, msg ++ "%s", name)` of `github.com/pkg/errors`
on a non-nil `err`. -/
def Wrapf (err : Err) (msg name : String) : Err := msg ++ name ++ ": " ++ err

/-! ## Collaborators -/

/-- The methods of `client.Client` that the controllers call, as step functions
on the world state. -/
structure Client (σ : Type) where
  /-- The call `cli.List(ctx, kcpList, InNamespace(ns), MatchingLabels(filter))`. -/
  List : String → Labels → σ → Except Err (List KubeadmControlPlane) × σ
  /-- The call `cli.Get(ctx, key, vsphereMachineTemplate)`. -/
  Get : NamespacedName → σ → Except Err VSphereMachineTemplate × σ
  /-- The call `r.Patch(ctx, obj, client.MergeFrom(base))`. -/
  Patch : Object → Object → σ → Option Err × σ

/-- The `ipam.IPAddressManager` capability set. -/
structure Ipam (σ : Type) where
  /-- The method `GetAvailableIPPool(labels, clusterMeta)`; `ok none` is a nil pool. -/
  GetAvailableIPPool : Labels → ObjectMeta → σ → Except Err (Option IPPool) × σ
  /-- The method `GetIP(name, pool)`; `ok none` is a nil address. -/
  GetIP : String → IPPool → σ → Except Err (Option IPAddress) × σ
  /-- The method `AllocateIP(name, pool, owner)`; the claim it returns is discarded. -/
  AllocateIP : String → IPPool → Object → σ → Option Err × σ

/-- The reconciler's environment: `r.Client` and the entry
`factory.IpamFactory[ipam.IpamTypeMetal3io]`, already applied to the client and
the logger (`none` when the map has no such entry). -/
structure World (σ : Type) where
  Client : Client σ
  IpamFactory : Option (Ipam σ)

/-- A call to a collaborator, with its arguments and its result. -/
inductive Event where
  | List (ns : String) (filter : Labels) (res : Except Err (List KubeadmControlPlane))
  | Get (key : NamespacedName) (res : Except Err VSphereMachineTemplate)
  | Patch (obj base : Object) (res : Option Err)
  | GetAvailableIPPool (labels : Labels) (cluster : ObjectMeta) (res : Except Err (Option IPPool))
  | GetIP (name : String) (pool : IPPool) (res : Except Err (Option IPAddress))
  | AllocateIP (name : String) (pool : IPPool) (owner : Object) (res : Option Err)

/-- The world state together with the log of the calls made so far. -/
structure St (σ : Type) where
  world : σ
  log : List Event

/-- The state in which a pass starts: no call made yet. -/
def St.init {σ : Type} (w : σ) : St σ := ⟨w, []⟩

variable {σ : Type}

/-- Perform `cli.List` and record it. -/
def callList (c : Client σ) (ns : String) (filter : Labels) (s : St σ) :
    Except Err (List KubeadmControlPlane) × St σ :=
  let r := c.List ns filter s.world
  (r.1, ⟨r.2, s.log ++ [Event.List ns filter r.1]⟩)

/-- Perform `cli.Get` and record it. -/
def callGet (c : Client σ) (key : NamespacedName) (s : St σ) :
    Except Err VSphereMachineTemplate × St σ :=
  let r := c.Get key s.world
  (r.1, ⟨r.2, s.log ++ [Event.Get key r.1]⟩)

/-- Perform `r.Patch` and record it. -/
def callPatch (c : Client σ) (obj base : Object) (s : St σ) : Option Err × St σ :=
  let r := c.Patch obj base s.world
  (r.1, ⟨r.2, s.log ++ [Event.Patch obj base r.1]⟩)

/-- Perform `ipamFunc.GetAvailableIPPool` and record it. -/
def callGetAvailableIPPool (f : Ipam σ) (labels : Labels) (cluster : ObjectMeta) (s : St σ) :
    Except Err (Option IPPool) × St σ :=
  let r := f.GetAvailableIPPool labels cluster s.world
  (r.1, ⟨r.2, s.log ++ [Event.GetAvailableIPPool labels cluster r.1]⟩)

/-- Perform `ipamFunc.GetIP` and record it. -/
def callGetIP (f : Ipam σ) (name : String) (pool : IPPool) (s : St σ) :
    Except Err (Option IPAddress) × St σ :=
  let r := f.GetIP name pool s.world
  (r.1, ⟨r.2, s.log ++ [Event.GetIP name pool r.1]⟩)

/-- Perform `ipamFunc.AllocateIP` and record it. -/
def callAllocateIP (f : Ipam σ) (name : String) (pool : IPPool) (owner : Object) (s : St σ) :
    Option Err × St σ :=
  let r := f.AllocateIP name pool owner s.world
  (r.1, ⟨r.2, s.log ++ [Event.AllocateIP name pool owner r.1]⟩)

/-! ## `getMatchLabels` -/

/-- The loop `for k, v := range src { labels[k] = v }`. -/
def rangeAssign (src : Labels) (labels : Labels) : Labels :=
  src.entries.foldl (fun acc e => acc.insert e.1 e.2) labels

/-- The function `getMatchLabels`. The result is `none` when the function
panics: `kcpList.Items[0]` on an empty list. -/
def getMatchLabels (c : Client σ) (u : Util) (clusterMeta : ObjectMeta)
    (vsphereMachine : VSphereMachine) (s : St σ) : Option (Labels × St σ) :=
  let labels : Labels := ∅
  let vmLabels := GetObjLabels vsphereMachine.ObjectMeta
  let labels := rangeAssign vmLabels labels
  if u.IsControlPlaneMachine vsphereMachine then
    let kcpFilter : Labels := AList.singleton u.ClusterNameKey clusterMeta.Name
    match callList c vsphereMachine.ObjectMeta.Namespace kcpFilter s with
    | (.error _, s) => some (labels, s)
    | (.ok items, s) =>
      match items with
      | [] => none
      | kcp :: _ =>
        let key : NamespacedName :=
          ⟨vsphereMachine.ObjectMeta.Namespace, kcp.InfrastructureTemplate⟩
        match callGet c key s with
        | (.error _, s) => some (labels, s)
        | (.ok vsphereMachineTemplate, s) =>
          let vmTemplateLabels := GetObjLabels vsphereMachineTemplate.ObjectMeta
          some (rangeAssign vmTemplateLabels labels, s)
  else
    some (labels, s)

/-! ## The reconcile pass -/

/-- The Device Updater, lines 176-185 of the machine controller (143-152 of the
load-balancer one): `%s/%d` of address and mask, gateway, nameservers and search
domains. -/
def updateDevice (dev : NetworkDeviceSpec) (ip : IPAddress) (ipPool : IPPool) :
    NetworkDeviceSpec :=
  let ipCidr := GetAddress ip ++ "/" ++ toString (GetMask ip)
  { dev with
    IPAddrs := [ipCidr]
    Gateway4 := GetGateway ip
    Nameservers := GetDNSServers ipPool
    SearchDomains := GetSearchDomains ipPool }

/-- The message prefixes by which the two controllers differ. -/
structure Msgs where
  getIP : String
  allocateIP : String
  invalidIP : String
  patch : String

/-- The messages of `reconcileVSphereMachineIPAddress`. -/
def vsphereMsgs : Msgs :=
  { getIP := "failed to get allocated IP address for VSphereMachine "
    allocateIP := "failed to allocate IP address for VSphereMachine: "
    invalidIP := "invalid IP address retrieved for VSphereMachine: "
    patch := "failed to patch VSphereMachine " }

/-- The messages of `reconcileLoadBalancerIPAddress`. -/
def lbMsgs : Msgs :=
  { getIP := "failed to get allocated IP address for HAProxyLoadBalancer "
    allocateIP := "failed to allocate IP address for HAProxyLoadBalancer "
    invalidIP := "invalid IP address retrieved for HAProxyLoadBalancer: "
    patch := "failed to patch HAProxyLoadBalancer " }

/-- How the body of the device loop ends for one device. -/
inductive DeviceEnd (σ : Type) where
  /-- A `return` inside the loop body. -/
  | ret (res : Result) (err : Option Err) (s : St σ)
  /-- The body reached `updatedDevices = append(updatedDevices, dev)`. -/
  | next (dev : NetworkDeviceSpec) (s : St σ)

/-- The body of the loop `for i, dev := range devices { … }` of both
controllers; `matchLabels` is the selector-label computation of the controller
(`getMatchLabels(…)` or `lb.Labels`) and `owner` the object handed to
`AllocateIP`. The result is `none` on a panic. -/
def reconcileDevice (u : Util) (f : Ipam σ) (msgs : Msgs) (cluster : ObjectMeta) (owner : Object)
    (matchLabels : St σ → Option (Labels × St σ)) (i : Nat) (dev : NetworkDeviceSpec)
    (s : St σ) : Option (DeviceEnd σ) :=
  if u.IsDeviceIPAllocationDHCP dev || decide (dev.IPAddrs.length > 0) then
    some (.next dev s)
  else
    match matchLabels s with
    | none => none
    | some (labels, s) =>
      match callGetAvailableIPPool f labels cluster s with
      | (.error _, s) => some (.ret {} none s)
      | (.ok none, s) => some (.ret {} none s)
      | (.ok (some ipPool), s) =>
        let ipName := u.GetFormattedClaimName owner.Meta.Name i
        match callGetIP f ipName ipPool s with
        | (.error err, s) => some (.ret {} (some (Wrapf err msgs.getIP owner.Meta.Name)) s)
        | (.ok none, s) =>
          match callAllocateIP f ipName ipPool owner s with
          | (some err, s) =>
            some (.ret {} (some (Wrapf err msgs.allocateIP owner.Meta.Name)) s)
          | (none, s) => some (.ret { RequeueAfter := 30 * Second } none s)
        | (.ok (some ip), s) =>
          match u.ValidateIP ip with
          | some err => some (.ret {} (some (Wrapf err msgs.invalidIP owner.Meta.Name)) s)
          | none => some (.next (updateDevice dev ip ipPool) s)

/-- How the device loop ends. -/
inductive LoopEnd (σ : Type) where
  /-- A `return` inside the loop. -/
  | ret (res : Result) (err : Option Err) (s : St σ)
  /-- The loop ran to its end, with the accumulated `updatedDevices`. -/
  | done (updatedDevices : List NetworkDeviceSpec) (s : St σ)

/-- The loop `for i, dev := range devices { … }` from index `i` on, with the
`updatedDevices` accumulated so far. -/
def deviceLoop (u : Util) (f : Ipam σ) (msgs : Msgs) (cluster : ObjectMeta) (owner : Object)
    (matchLabels : St σ → Option (Labels × St σ)) :
    Nat → List NetworkDeviceSpec → List NetworkDeviceSpec → St σ → Option (LoopEnd σ)
  | _, [], updatedDevices, s => some (.done updatedDevices s)
  | i, dev :: rest, updatedDevices, s =>
    match reconcileDevice u f msgs cluster owner matchLabels i dev s with
    | none => none
    | some (.ret res err s) => some (.ret res err s)
    | some (.next dev s) =>
      deviceLoop u f msgs cluster owner matchLabels (i + 1) rest (updatedDevices ++ [dev]) s

/-- What a pass returns and leaves behind: the `*ctrl.Result`, the `error`, the
in-memory object the caller still holds (`none` for a nil pointer), and the
world with the log. -/
structure Pass (σ : Type) where
  res : Result
  err : Option Err
  obj : Option Object
  st : St σ

/-- The body shared by `reconcileVSphereMachineIPAddress` and
`reconcileLoadBalancerIPAddress` after the nil check. -/
def reconcileIPAddress (W : World σ) (u : Util) (msgs : Msgs) (cluster : ObjectMeta)
    (obj : Object) (matchLabels : St σ → Option (Labels × St σ)) (s : St σ) :
    Option (Pass σ) :=
  let devices := obj.Devices
  if devices.length = 0 then
    some ⟨{}, none, some obj, s⟩
  else if IsMachineIPAllocationDHCP u devices then
    some ⟨{}, none, some obj, s⟩
  else
    match W.IpamFactory with
    | none => some ⟨{}, none, some obj, s⟩
    | some ipamFunc =>
      match deviceLoop u ipamFunc msgs cluster obj matchLabels 0 devices [] s with
      | none => none
      | some (.ret res err s) => some ⟨res, err, some obj, s⟩
      | some (.done updatedDevices s) =>
        let obj' := obj.setDevices updatedDevices
        match callPatch W.Client obj' obj s with
        | (some err, s) => some ⟨{}, some (Wrapf err msgs.patch obj.Meta.Name), some obj', s⟩
        | (none, s) => some ⟨{}, none, some obj', s⟩

/-- The method `reconcileVSphereMachineIPAddress`; `cluster` is
`cluster.ObjectMeta` of the non-nil cluster its caller passes. -/
def reconcileVSphereMachineIPAddress (W : World σ) (u : Util) (cluster : ObjectMeta)
    (vsphereMachine : Option VSphereMachine) (s : St σ) : Option (Pass σ) :=
  match vsphereMachine with
  | none => some ⟨{}, none, none, s⟩
  | some vm =>
    reconcileIPAddress W u vsphereMsgs cluster (.VSphereMachine vm)
      (getMatchLabels W.Client u cluster vm) s

/-- The method `reconcileLoadBalancerIPAddress`; `cluster` is
`cluster.ObjectMeta` of the non-nil cluster its caller passes. -/
def reconcileLoadBalancerIPAddress (W : World σ) (u : Util) (cluster : ObjectMeta)
    (lb : Option HAProxyLoadBalancer) (s : St σ) : Option (Pass σ) :=
  match lb with
  | none => some ⟨{}, none, none, s⟩
  | some lb =>
    reconcileIPAddress W u lbMsgs cluster (.HAProxyLoadBalancer lb)
      (fun s => some (lb.ObjectMeta.Labels, s)) s

/-! ## Reading the log -/

/-- The Device Classifier of the spec, `needsAllocation`: the negation of the
loop's `IsDeviceIPAllocationDHCP(dev) || len(dev.IPAddrs) > 0`. -/
def needsAllocation (u : Util) (dev : NetworkDeviceSpec) : Bool :=
  !(u.IsDeviceIPAllocationDHCP dev || decide (dev.IPAddrs.length > 0))

/-- A call of `r.Patch`. -/
def Event.isPatch : Event → Bool
  | .Patch _ _ _ => true
  | _ => false

/-- A call of `r.Patch` that returned a nil error: a committed patch. -/
def Event.isCommit : Event → Bool
  | .Patch _ _ none => true
  | _ => false

/-- A call of `r.Patch` that returned an error. -/
def Event.patchFailed : Event → Bool
  | .Patch _ _ (some _) => true
  | _ => false

/-- A call of `GetIP`. -/
def Event.isGetIP : Event → Bool
  | .GetIP _ _ _ => true
  | _ => false

/-- A call of `AllocateIP`. -/
def Event.isAllocateIP : Event → Bool
  | .AllocateIP _ _ _ _ => true
  | _ => false

/-- A call of `cli.List` or `cli.Get`: the template lookup of `getMatchLabels`. -/
def Event.isLookup : Event → Bool
  | .List _ _ _ => true
  | .Get _ _ => true
  | _ => false

/-- A failed call of `cli.List` or `cli.Get`. -/
def Event.lookupFailed : Event → Bool
  | .List _ _ (.error _) => true
  | .Get _ (.error _) => true
  | _ => false

/-- The pool resolver returned an error. -/
def Event.poolFailed : Event → Bool
  | .GetAvailableIPPool _ _ (.error _) => true
  | _ => false

/-- The pool resolver found no pool (a nil pool, no error). -/
def Event.poolNotFound : Event → Bool
  | .GetAvailableIPPool _ _ (.ok none) => true
  | _ => false

/-- The call of `GetIP` returned an error. -/
def Event.getIPFailed : Event → Bool
  | .GetIP _ _ (.error _) => true
  | _ => false

/-- The call of `GetIP` returned a nil address: not yet fulfilled. -/
def Event.notFulfilled : Event → Bool
  | .GetIP _ _ (.ok none) => true
  | _ => false

/-- The call of `GetIP` returned an address that `ValidateIP` rejects. -/
def Event.invalidIP (u : Util) : Event → Bool
  | .GetIP _ _ (.ok (some ip)) => (u.ValidateIP ip).isSome
  | _ => false

/-- The call of `AllocateIP` returned an error. -/
def Event.allocateFailed : Event → Bool
  | .AllocateIP _ _ _ (some _) => true
  | _ => false

/-- The failures that a pass returns as its error: a failed `GetIP`, a failed
`AllocateIP`, a failed `Patch`, or a fulfilled address that `ValidateIP`
rejects. -/
def Event.propagated (u : Util) (e : Event) : Bool :=
  e.getIPFailed || e.allocateFailed || e.patchFailed || e.invalidIP u

/-- The calls after which the loop goes on: template lookups, a pool that was
found, a fulfilled address that is valid. -/
def Event.passes (u : Util) : Event → Bool
  | .List _ _ _ => true
  | .Get _ _ => true
  | .GetAvailableIPPool _ _ (.ok (some _)) => true
  | .GetIP _ _ (.ok (some ip)) => (u.ValidateIP ip).isNone
  | _ => false

/-- The last calls of a pass that returns inside the loop, with the result and
the error it returns. -/
inductive Halt (u : Util) : List Event → Result → Option Err → Prop where
  | poolFailed (l : Labels) (c : ObjectMeta) (e : Err) :
      Halt u [.GetAvailableIPPool l c (.error e)] {} none
  | poolNotFound (l : Labels) (c : ObjectMeta) :
      Halt u [.GetAvailableIPPool l c (.ok none)] {} none
  | getIPFailed (n : String) (p : IPPool) (e e' : Err) :
      Halt u [.GetIP n p (.error e)] {} (some e')
  | allocateFailed (n : String) (p : IPPool) (o : Object) (e e' : Err) :
      Halt u [.GetIP n p (.ok none), .AllocateIP n p o (some e)] {} (some e')
  | pending (n : String) (p : IPPool) (o : Object) :
      Halt u [.GetIP n p (.ok none), .AllocateIP n p o none] { RequeueAfter := 30 * Second } none
  | invalidIP (n : String) (p : IPPool) (ip : IPAddress) (e e' : Err) :
      u.ValidateIP ip = some e → Halt u [.GetIP n p (.ok (some ip))] {} (some e')

/-- The selector-label computation only looks templates up: it extends the log
by `List` and `Get` calls. -/
def LabelStep (matchLabels : St σ → Option (Labels × St σ)) : Prop :=
  ∀ s labels s1, matchLabels s = some (labels, s1) →
    ∃ new, s1.log = s.log ++ new ∧ ∀ e ∈ new, e.isLookup = true

/-- How device `dev` at index `i` of an object named `name` is carried into the
updated list as `d`, given the calls `new` of the pass: unchanged when it needs
no allocation, and otherwise rewritten from a pool the resolver returned and the
valid address that `GetIP` returned for the claim name of index `i`. -/
def Carried (u : Util) (cluster : ObjectMeta) (name : String) (new : List Event) (i : Nat)
    (dev d : NetworkDeviceSpec) : Prop :=
  (needsAllocation u dev = false ∧ d = dev) ∨
  (needsAllocation u dev = true ∧ ∃ labels pool ip,
    Event.GetAvailableIPPool labels cluster (.ok (some pool)) ∈ new ∧
    Event.GetIP (u.GetFormattedClaimName name i) pool (.ok (some ip)) ∈ new ∧
    u.ValidateIP ip = none ∧ d = updateDevice dev ip pool)

/-- The three ways a pass that does not panic can end, from state `s`:
it does nothing (no device, all devices `dhcp`, no provider registered); it
returns inside the loop, the object untouched; or the loop runs to its end and
one `Patch` is issued for the object with the updated list. -/
def PassShape (u : Util) (cluster : ObjectMeta) (obj : Object) (s : St σ) (p : Pass σ) : Prop :=
  (p.obj = some obj ∧ p.st = s ∧ p.res = {} ∧ p.err = none) ∨
  (p.obj = some obj ∧ ∃ pre tail, p.st.log = s.log ++ pre ++ tail ∧
    (∀ e ∈ pre, e.passes u = true) ∧ Halt u tail p.res p.err) ∨
  (∃ pre ds r, p.st.log = s.log ++ pre ++ [Event.Patch (obj.setDevices ds) obj r] ∧
    (∀ e ∈ pre, e.passes u = true) ∧ p.obj = some (obj.setDevices ds) ∧ p.res = {} ∧
    p.err.isSome = r.isSome ∧ ds.length = obj.Devices.length ∧
    ∀ j dev, obj.Devices[j]? = some dev →
      ∃ d, ds[j]? = some d ∧ Carried u cluster obj.Meta.Name pre j dev d)

/-! ## Example worlds -/

/-- The fixed answers of a scripted world. -/
structure Script where
  kcps : Except Err (List KubeadmControlPlane)
  template : Except Err VSphereMachineTemplate
  patch : Option Err
  pool : Except Err (Option IPPool)
  ip : String → Except Err (Option IPAddress)
  allocate : Option Err

/-- The client of a scripted world: every call is answered from the script and
leaves the state, the list of the names of the claims in the store, as it is. -/
def scriptedClient (sc : Script) : Client (List String) :=
  { List := fun _ _ w => (sc.kcps, w)
    Get := fun _ w => (sc.template, w)
    Patch := fun _ _ w => (sc.patch, w) }

/-- The provider of a scripted world. Modelled from the spec: `AllocateIP` of the
provider (`pkg/ipam/metal3io`, not under `src/`) creates the claim if absent and
leaves an existing claim alone. -/
def scriptedIpam (sc : Script) : Ipam (List String) :=
  { GetAvailableIPPool := fun _ _ w => (sc.pool, w)
    GetIP := fun n _ w => (sc.ip n, w)
    AllocateIP := fun n _ _ w =>
      match sc.allocate with
      | some e => (some e, w)
      | none => (none, if n ∈ w then w else w ++ [n]) }

/-- A world that answers every call from a script, with the provider
registered. -/
def scriptedWorld (sc : Script) : World (List String) :=
  { Client := scriptedClient sc, IpamFactory := some (scriptedIpam sc) }

/-- The contract of a create-if-absent provider, for `count w n` the number of
claims named `n` in the store `w`: the reads leave the claims alone, and a
successful `AllocateIP` creates the claim when there is none of that name and
leaves the claims of that name alone otherwise. -/
structure CreateIfAbsent (c : Client σ) (f : Ipam σ) (count : σ → String → Nat) : Prop where
  list : ∀ ns l w n, count (c.List ns l w).2 n = count w n
  get : ∀ k w n, count (c.Get k w).2 n = count w n
  pool : ∀ l m w n, count (f.GetAvailableIPPool l m w).2 n = count w n
  getIP : ∀ name p w n, count (f.GetIP name p w).2 n = count w n
  allocate : ∀ name p o w, (f.AllocateIP name p o w).1 = none →
    count (f.AllocateIP name p o w).2 name = if count w name = 0 then 1 else count w name

/-- A choice of the helpers for the examples: a device is in `dhcp` mode when
`DHCP4` or `DHCP6` is set, the claim name is `name-index`, an address with an
empty value is invalid, a control-plane member carries the control-plane label. -/
def demoUtil : Util :=
  { IsDeviceIPAllocationDHCP := fun dev => dev.DHCP4 || dev.DHCP6
    GetFormattedClaimName := fun name i => name ++ "-" ++ toString i
    ValidateIP := fun ip => if ip.Address = "" then some "empty address" else none
    IsControlPlaneMachine := fun vm =>
      (vm.ObjectMeta.Labels.lookup "cluster.x-k8s.io/control-plane").isSome
    ClusterNameKey := "cluster.x-k8s.io/cluster-name" }

/-- A static device with no address. -/
def staticDev : NetworkDeviceSpec :=
  { NetworkName := "net0", DeviceName := "eth0", DHCP4 := false, DHCP6 := false, Gateway4 := "",
    Gateway6 := "", IPAddrs := [], MTU := none, MACAddr := "", Nameservers := [], Routes := [],
    SearchDomains := [] }

/-- A static device that already holds an address. -/
def allocatedDev : NetworkDeviceSpec :=
  { staticDev with DeviceName := "eth1", IPAddrs := ["10.0.0.9/24"], Gateway4 := "10.0.0.1" }

/-- A device in `dhcp` mode that holds an address. -/
def allocatedDhcpDev : NetworkDeviceSpec :=
  { allocatedDev with DeviceName := "eth3", DHCP4 := true }

/-- A device in `dhcp` mode. -/
def dhcpDev : NetworkDeviceSpec :=
  { staticDev with DeviceName := "eth2", DHCP4 := true }

/-- The pool of the spec's CIDR scenario. -/
def demoPool : IPPool :=
  { Name := "pool", Labels := ∅, Gateway := "10.0.0.1", Nameservers := ["8.8.8.8"],
    SearchDomains := ["example.com"], Prefix := 24 }

/-- The address of the spec's CIDR scenario. -/
def demoIP : IPAddress :=
  { Name := "ip-0", Address := "10.0.0.5", Prefix := 24, Gateway := "10.0.0.1" }

/-- The cluster of the examples. -/
def demoCluster : ObjectMeta := { Name := "c1", Namespace := "default", Labels := ∅ }

/-- A worker machine named `vm` with the given devices. -/
def demoVM (devices : List NetworkDeviceSpec) : VSphereMachine :=
  { ObjectMeta := { Name := "vm", Namespace := "default", Labels := ∅ }, Devices := devices }

/-- A load balancer named `lb` with the given devices. -/
def demoLB (devices : List NetworkDeviceSpec) : HAProxyLoadBalancer :=
  { ObjectMeta := { Name := "lb", Namespace := "default", Labels := ∅ }, Devices := devices }

/-- A script in which every call succeeds: one control plane, its template, a
pool, and an address fulfilled for the claims of index 0 only. -/
def firstFulfilled : Script :=
  { kcps := .ok [{ Name := "kcp", InfrastructureTemplate := "tmpl" }]
    template := .ok { ObjectMeta := { Name := "tmpl", Namespace := "default", Labels := ∅ } }
    patch := none
    pool := .ok (some demoPool)
    ip := fun n => if n = "vm-0" ∨ n = "lb-0" then .ok (some demoIP) else .ok none
    allocate := none }

/-- A script in which every address is fulfilled. -/
def allFulfilled : Script :=
  { firstFulfilled with ip := fun _ => .ok (some demoIP) }

/-- A script in which no address is fulfilled yet. -/
def neverFulfilled : Script :=
  { firstFulfilled with ip := fun _ => .ok none }

/-- The labels of the control-plane machine of the examples. -/
def cpLabels : Labels :=
  ((∅ : Labels).insert "zone" "a").insert "cluster.x-k8s.io/control-plane" ""

/-- The labels of the machine template of the examples. -/
def tmplLabels : Labels :=
  ((∅ : Labels).insert "zone" "b").insert "pool" "cp"

/-- A control-plane machine named `cp` with the given devices. -/
def demoCP (devices : List NetworkDeviceSpec) : VSphereMachine :=
  { ObjectMeta := { Name := "cp", Namespace := "default", Labels := cpLabels },
    Devices := devices }

/-- The machine template of the examples. -/
def demoTemplate : VSphereMachineTemplate :=
  { ObjectMeta := { Name := "tmpl", Namespace := "default", Labels := tmplLabels } }

/-- A script in which every call succeeds and the template carries labels. -/
def labelled : Script :=
  { allFulfilled with template := .ok demoTemplate }

/-- A script in which the control-plane list succeeds with no candidate. -/
def noControlPlane : Script :=
  { allFulfilled with kcps := .ok [] }

/-- A script in which the control-plane list returns two candidates. -/
def twoControlPlanes : Script :=
  { labelled with
    kcps := .ok [{ Name := "kcp-a", InfrastructureTemplate := "tmpl-a" },
      { Name := "kcp-b", InfrastructureTemplate := "tmpl-b" }] }

/-- A script in which the pool lookup fails. -/
def poolDown : Script :=
  { allFulfilled with pool := .error "pool list failed" }

/-- A script in which the template lookup fails. -/
def templateDown : Script :=
  { allFulfilled with template := .error "template not found" }

/-- A script in which `GetIP` fails. -/
def getIPDown : Script :=
  { allFulfilled with ip := fun _ => .error "address get failed" }

/-- A script in which the control-plane list fails. -/
def listDown : Script :=
  { allFulfilled with kcps := .error "list failed" }

/-- A script in which the resolver finds no pool. -/
def noPool : Script :=
  { firstFulfilled with pool := .ok none }

/-! ## The loop body -/

theorem isLookup_passes (u : Util) (e : Event) (h : e.isLookup = true) : e.passes u = true := by
  cases e <;> simp_all [Event.isLookup, Event.passes]

theorem Carried.mono {u : Util} {cluster : ObjectMeta} {name : String} {new new' : List Event}
    {i : Nat} {dev d : NetworkDeviceSpec} (h : Carried u cluster name new i dev d)
    (hsub : ∀ e ∈ new, e ∈ new') : Carried u cluster name new' i dev d := by
  rcases h with h | ⟨hn, labels, pool, ip, h1, h2, h3, h4⟩
  · exact Or.inl h
  · exact Or.inr ⟨hn, labels, pool, ip, hsub _ h1, hsub _ h2, h3, h4⟩

/-- A device that needs no allocation is appended as it is, with no call. -/
theorem reconcileDevice_skip (u : Util) (f : Ipam σ) (msgs : Msgs) (cluster : ObjectMeta)
    (owner : Object) (ml : St σ → Option (Labels × St σ)) (i : Nat) (dev : NetworkDeviceSpec)
    (s : St σ) (h : needsAllocation u dev = false) :
    reconcileDevice u f msgs cluster owner ml i dev s = some (.next dev s) := by
  unfold needsAllocation at h
  cases hc : (u.IsDeviceIPAllocationDHCP dev || decide (dev.IPAddrs.length > 0))
  · rw [hc] at h
    exact absurd h (by decide)
  · simp only [reconcileDevice, hc, if_true]

/-- The loop body, when it goes on to the next device. -/
theorem reconcileDevice_next (u : Util) (f : Ipam σ) (msgs : Msgs) (cluster : ObjectMeta)
    (owner : Object) (ml : St σ → Option (Labels × St σ)) (hml : LabelStep ml) (i : Nat)
    (dev d : NetworkDeviceSpec) (s s1 : St σ)
    (h : reconcileDevice u f msgs cluster owner ml i dev s = some (.next d s1)) :
    ∃ new, s1.log = s.log ++ new ∧ (∀ e ∈ new, e.passes u = true) ∧
      Carried u cluster owner.Meta.Name new i dev d := by
  unfold reconcileDevice at h
  split at h
  · rename_i hskip
    simp only [Option.some.injEq, DeviceEnd.next.injEq] at h
    obtain ⟨rfl, rfl⟩ := h
    exact ⟨[], by simp, by simp, Or.inl ⟨by simp [needsAllocation, hskip], rfl⟩⟩
  · rename_i hskip
    split at h
    · exact absurd h (by simp)
    · rename_i labels s2 hl
      obtain ⟨new0, hlog0, hnew0⟩ := hml _ _ _ hl
      simp only [callGetAvailableIPPool, callGetIP, callAllocateIP] at h
      split at h
      · exact absurd h (by simp)
      · exact absurd h (by simp)
      · rename_i ipPool s3 hp
        simp only [Prod.mk.injEq] at hp
        obtain ⟨hp1, rfl⟩ := hp
        split at h
        · exact absurd h (by simp)
        · split at h <;> exact absurd h (by simp)
        · rename_i ip s4 hg
          simp only [Prod.mk.injEq] at hg
          obtain ⟨hg1, rfl⟩ := hg
          split at h
          · exact absurd h (by simp)
          · rename_i hv
            simp only [Option.some.injEq, DeviceEnd.next.injEq] at h
            obtain ⟨rfl, rfl⟩ := h
            refine ⟨new0 ++ [Event.GetAvailableIPPool labels cluster (.ok (some ipPool)),
              Event.GetIP (u.GetFormattedClaimName owner.Meta.Name i) ipPool (.ok (some ip))],
              ?_, ?_, ?_⟩
            · simp [hlog0, hp1, hg1]
            · intro e he
              simp only [List.mem_append, List.mem_cons, List.mem_singleton,
                List.not_mem_nil, or_false] at he
              rcases he with he | rfl | rfl
              · exact isLookup_passes u e (hnew0 e he)
              · rfl
              · simp [Event.passes, hv]
            · refine Or.inr ⟨by simpa [needsAllocation] using hskip, labels, ipPool, ip,
                by simp, by simp, hv, rfl⟩

/-- The loop body, when it returns. -/
theorem reconcileDevice_ret (u : Util) (f : Ipam σ) (msgs : Msgs) (cluster : ObjectMeta)
    (owner : Object) (ml : St σ → Option (Labels × St σ)) (hml : LabelStep ml) (i : Nat)
    (dev : NetworkDeviceSpec) (res : Result) (err : Option Err) (s s1 : St σ)
    (h : reconcileDevice u f msgs cluster owner ml i dev s = some (.ret res err s1)) :
    needsAllocation u dev = true ∧ ∃ pre tail, s1.log = s.log ++ pre ++ tail ∧
      (∀ e ∈ pre, e.passes u = true) ∧ Halt u tail res err := by
  unfold reconcileDevice at h
  split at h
  · exact absurd h (by simp)
  · rename_i hskip
    refine ⟨by simpa [needsAllocation] using hskip, ?_⟩
    split at h
    · exact absurd h (by simp)
    · rename_i labels s2 hl
      obtain ⟨new0, hlog0, hnew0⟩ := hml _ _ _ hl
      have hpass0 : ∀ e ∈ new0, e.passes u = true := fun e he => isLookup_passes u e (hnew0 e he)
      simp only [callGetAvailableIPPool, callGetIP, callAllocateIP] at h
      split at h
      · rename_i e s3 hp
        simp only [Prod.mk.injEq] at hp
        obtain ⟨hp1, rfl⟩ := hp
        simp only [Option.some.injEq, DeviceEnd.ret.injEq] at h
        obtain ⟨rfl, rfl, rfl⟩ := h
        exact ⟨new0, _, by simp [hlog0, hp1], hpass0, Halt.poolFailed labels cluster e⟩
      · rename_i s3 hp
        simp only [Prod.mk.injEq] at hp
        obtain ⟨hp1, rfl⟩ := hp
        simp only [Option.some.injEq, DeviceEnd.ret.injEq] at h
        obtain ⟨rfl, rfl, rfl⟩ := h
        exact ⟨new0, _, by simp [hlog0, hp1], hpass0, Halt.poolNotFound labels cluster⟩
      · rename_i ipPool s3 hp
        simp only [Prod.mk.injEq] at hp
        obtain ⟨hp1, rfl⟩ := hp
        have hpass1 : ∀ e ∈ new0 ++ [Event.GetAvailableIPPool labels cluster (.ok (some ipPool))],
            e.passes u = true := by
          intro e he
          simp only [List.mem_append, List.mem_singleton] at he
          rcases he with he | rfl
          · exact hpass0 e he
          · rfl
        split at h
        · rename_i e s4 hg
          simp only [Prod.mk.injEq] at hg
          obtain ⟨hg1, rfl⟩ := hg
          simp only [Option.some.injEq, DeviceEnd.ret.injEq] at h
          obtain ⟨rfl, rfl, rfl⟩ := h
          exact ⟨_, _, by simp [hlog0, hp1, hg1], hpass1, Halt.getIPFailed (u.GetFormattedClaimName owner.Meta.Name i) ipPool e _⟩
        · rename_i s4 hg
          simp only [Prod.mk.injEq] at hg
          obtain ⟨hg1, rfl⟩ := hg
          split at h
          · rename_i e s5 ha
            simp only [Prod.mk.injEq] at ha
            obtain ⟨ha1, rfl⟩ := ha
            simp only [Option.some.injEq, DeviceEnd.ret.injEq] at h
            obtain ⟨rfl, rfl, rfl⟩ := h
            exact ⟨_, _, by simp [hlog0, hp1, hg1, ha1], hpass1,
              Halt.allocateFailed (u.GetFormattedClaimName owner.Meta.Name i) ipPool owner e _⟩
          · rename_i s5 ha
            simp only [Prod.mk.injEq] at ha
            obtain ⟨ha1, rfl⟩ := ha
            simp only [Option.some.injEq, DeviceEnd.ret.injEq] at h
            obtain ⟨rfl, rfl, rfl⟩ := h
            exact ⟨_, _, by simp [hlog0, hp1, hg1, ha1], hpass1, Halt.pending (u.GetFormattedClaimName owner.Meta.Name i) ipPool owner⟩
        · rename_i ip s4 hg
          simp only [Prod.mk.injEq] at hg
          obtain ⟨hg1, rfl⟩ := hg
          split at h
          · rename_i e hv
            simp only [Option.some.injEq, DeviceEnd.ret.injEq] at h
            obtain ⟨rfl, rfl, rfl⟩ := h
            exact ⟨_, _, by simp [hlog0, hp1, hg1], hpass1, Halt.invalidIP (u.GetFormattedClaimName owner.Meta.Name i) ipPool ip e _ hv⟩
          · exact absurd h (by simp)

/-! ## The loop -/

/-- The loop, when it runs to its end: every call passes, and every device is
carried over at its own index. -/
theorem deviceLoop_done (u : Util) (f : Ipam σ) (msgs : Msgs) (cluster : ObjectMeta)
    (owner : Object) (ml : St σ → Option (Labels × St σ)) (hml : LabelStep ml)
    (rest : List NetworkDeviceSpec) :
    ∀ (i : Nat) (upd upd1 : List NetworkDeviceSpec) (s s1 : St σ),
      deviceLoop u f msgs cluster owner ml i rest upd s = some (.done upd1 s1) →
      ∃ new ds, s1.log = s.log ++ new ∧ (∀ e ∈ new, e.passes u = true) ∧
        upd1 = upd ++ ds ∧ ds.length = rest.length ∧
        ∀ j dev, rest[j]? = some dev →
          ∃ d, ds[j]? = some d ∧ Carried u cluster owner.Meta.Name new (i + j) dev d := by
  induction rest with
  | nil =>
    intro i upd upd1 s s1 h
    simp only [deviceLoop, Option.some.injEq, LoopEnd.done.injEq] at h
    obtain ⟨rfl, rfl⟩ := h
    exact ⟨[], [], by simp, by simp, by simp, rfl, by simp⟩
  | cons dev rest ih =>
    intro i upd upd1 s s1 h
    rw [deviceLoop] at h
    split at h
    · exact absurd h (by simp)
    · exact absurd h (by simp)
    · rename_i d s2 hd
      obtain ⟨new1, hlog1, hpass1, hc1⟩ :=
        reconcileDevice_next u f msgs cluster owner ml hml i dev d s s2 hd
      obtain ⟨new2, ds, hlog2, hpass2, hupd, hlen, hrel⟩ := ih (i + 1) _ _ _ _ h
      refine ⟨new1 ++ new2, d :: ds, by simp [hlog2, hlog1], ?_, by simp [hupd], by simp [hlen], ?_⟩
      · intro e he
        rcases List.mem_append.1 he with he | he
        · exact hpass1 e he
        · exact hpass2 e he
      · intro j dv hj
        cases j with
        | zero =>
          simp only [List.getElem?_cons_zero, Option.some.injEq] at hj
          subst hj
          exact ⟨d, by simp, hc1.mono (fun e he => List.mem_append_left _ he)⟩
        | succ j =>
          simp only [List.getElem?_cons_succ] at hj
          obtain ⟨d2, hd2, hc2⟩ := hrel j dv hj
          refine ⟨d2, by simpa using hd2, ?_⟩
          have : i + (j + 1) = i + 1 + j := by omega
          rw [this]
          exact hc2.mono (fun e he => List.mem_append_right _ he)

/-- The loop, when it returns: the calls before the last ones all pass, and the
last ones fix the result and the error. -/
theorem deviceLoop_ret (u : Util) (f : Ipam σ) (msgs : Msgs) (cluster : ObjectMeta)
    (owner : Object) (ml : St σ → Option (Labels × St σ)) (hml : LabelStep ml)
    (rest : List NetworkDeviceSpec) :
    ∀ (i : Nat) (upd : List NetworkDeviceSpec) (res : Result) (err : Option Err) (s s1 : St σ),
      deviceLoop u f msgs cluster owner ml i rest upd s = some (.ret res err s1) →
      ∃ pre tail, s1.log = s.log ++ pre ++ tail ∧ (∀ e ∈ pre, e.passes u = true) ∧
        Halt u tail res err := by
  induction rest with
  | nil =>
    intro i upd res err s s1 h
    simp [deviceLoop] at h
  | cons dev rest ih =>
    intro i upd res err s s1 h
    rw [deviceLoop] at h
    split at h
    · exact absurd h (by simp)
    · rename_i res2 err2 s2 hd
      simp only [Option.some.injEq, LoopEnd.ret.injEq] at h
      obtain ⟨rfl, rfl, rfl⟩ := h
      exact (reconcileDevice_ret u f msgs cluster owner ml hml i dev _ _ s _ hd).2
    · rename_i d s2 hd
      obtain ⟨new1, hlog1, hpass1, -⟩ :=
        reconcileDevice_next u f msgs cluster owner ml hml i dev d s s2 hd
      obtain ⟨pre, tail, hlog2, hpass2, hhalt⟩ := ih (i + 1) _ _ _ _ _ h
      refine ⟨new1 ++ pre, tail, by simp [hlog2, hlog1], ?_, hhalt⟩
      intro e he
      rcases List.mem_append.1 he with he | he
      · exact hpass1 e he
      · exact hpass2 e he

/-! ## The pass -/

theorem reconcileIPAddress_shape (W : World σ) (u : Util) (msgs : Msgs) (cluster : ObjectMeta)
    (obj : Object) (ml : St σ → Option (Labels × St σ)) (hml : LabelStep ml) (s : St σ)
    (p : Pass σ) (h : reconcileIPAddress W u msgs cluster obj ml s = some p) :
    PassShape u cluster obj s p := by
  unfold reconcileIPAddress at h
  simp only at h
  split at h
  · simp only [Option.some.injEq] at h
    subst h
    exact Or.inl ⟨rfl, rfl, rfl, rfl⟩
  · split at h
    · simp only [Option.some.injEq] at h
      subst h
      exact Or.inl ⟨rfl, rfl, rfl, rfl⟩
    · split at h
      · simp only [Option.some.injEq] at h
        subst h
        exact Or.inl ⟨rfl, rfl, rfl, rfl⟩
      · rename_i ipamFunc hf
        split at h
        · exact absurd h (by simp)
        · rename_i res err s1 hloop
          simp only [Option.some.injEq] at h
          subst h
          exact Or.inr (Or.inl ⟨rfl,
            deviceLoop_ret u ipamFunc msgs cluster obj ml hml _ 0 [] res err s s1 hloop⟩)
        · rename_i upd s1 hloop
          obtain ⟨new, ds, hlog, hpass, hupd, hlen, hrel⟩ :=
            deviceLoop_done u ipamFunc msgs cluster obj ml hml _ 0 [] upd s s1 hloop
          simp only [List.nil_append] at hupd
          subst hupd
          simp only [callPatch] at h
          split at h
          · rename_i err s2 hp
            simp only [Prod.mk.injEq] at hp
            obtain ⟨hp1, rfl⟩ := hp
            simp only [Option.some.injEq] at h
            subst h
            refine Or.inr (Or.inr ⟨new, upd, some err, by simp [hlog, hp1], hpass, rfl, rfl, rfl,
              hlen, ?_⟩)
            intro j dev hj
            simpa using hrel j dev hj
          · rename_i s2 hp
            simp only [Prod.mk.injEq] at hp
            obtain ⟨hp1, rfl⟩ := hp
            simp only [Option.some.injEq] at h
            subst h
            refine Or.inr (Or.inr ⟨new, upd, none, by simp [hlog, hp1], hpass, rfl, rfl, rfl,
              hlen, ?_⟩)
            intro j dev hj
            simpa using hrel j dev hj

/-- The template lookup of `getMatchLabels` extends the log by `List` and `Get`
calls only. -/
theorem getMatchLabels_labelStep (c : Client σ) (u : Util) (clusterMeta : ObjectMeta)
    (vm : VSphereMachine) : LabelStep (getMatchLabels c u clusterMeta vm) := by
  intro s labels s1 h
  unfold getMatchLabels at h
  simp only [callList, callGet] at h
  split at h
  · split at h
    · rename_i e s2 hl
      simp only [Prod.mk.injEq] at hl
      obtain ⟨hl1, rfl⟩ := hl
      simp only [Option.some.injEq, Prod.mk.injEq] at h
      obtain ⟨-, rfl⟩ := h
      exact ⟨_, rfl, by simp [Event.isLookup]⟩
    · rename_i items s2 hl
      simp only [Prod.mk.injEq] at hl
      obtain ⟨hl1, rfl⟩ := hl
      split at h
      · exact absurd h (by simp)
      · split at h
        · rename_i e s3 hg
          simp only [Prod.mk.injEq] at hg
          obtain ⟨hg1, rfl⟩ := hg
          simp only [Option.some.injEq, Prod.mk.injEq] at h
          obtain ⟨-, rfl⟩ := h
          exact ⟨_, List.append_assoc _ _ _, by simp [Event.isLookup]⟩
        · rename_i t s3 hg
          simp only [Prod.mk.injEq] at hg
          obtain ⟨hg1, rfl⟩ := hg
          simp only [Option.some.injEq, Prod.mk.injEq] at h
          obtain ⟨-, rfl⟩ := h
          exact ⟨_, List.append_assoc _ _ _, by simp [Event.isLookup]⟩
  · simp only [Option.some.injEq, Prod.mk.injEq] at h
    obtain ⟨-, rfl⟩ := h
    exact ⟨[], by simp, by simp⟩

/-- Reading `lb.Labels` makes no call. -/
theorem const_labelStep (labels : Labels) :
    LabelStep (fun s : St σ => some (labels, s)) := by
  intro s l s1 h
  simp only [Option.some.injEq, Prod.mk.injEq] at h
  obtain ⟨-, rfl⟩ := h
  exact ⟨[], by simp, by simp⟩

theorem reconcileVSphereMachineIPAddress_shape (W : World σ) (u : Util) (cluster : ObjectMeta)
    (vm : VSphereMachine) (s : St σ) (p : Pass σ)
    (h : reconcileVSphereMachineIPAddress W u cluster (some vm) s = some p) :
    PassShape u cluster (.VSphereMachine vm) s p :=
  reconcileIPAddress_shape W u vsphereMsgs cluster (.VSphereMachine vm) _
    (getMatchLabels_labelStep W.Client u cluster vm) s p h

theorem reconcileLoadBalancerIPAddress_shape (W : World σ) (u : Util) (cluster : ObjectMeta)
    (lb : HAProxyLoadBalancer) (s : St σ) (p : Pass σ)
    (h : reconcileLoadBalancerIPAddress W u cluster (some lb) s = some p) :
    PassShape u cluster (.HAProxyLoadBalancer lb) s p :=
  reconcileIPAddress_shape W u lbMsgs cluster (.HAProxyLoadBalancer lb) _
    (const_labelStep lb.ObjectMeta.Labels) s p h

/-! ## Consequences of the shape of a pass -/

theorem passes_flags (u : Util) (e : Event) (h : e.passes u = true) :
    e.isPatch = false ∧ e.isCommit = false ∧ e.patchFailed = false ∧ e.poolFailed = false ∧
    e.poolNotFound = false ∧ e.getIPFailed = false ∧ e.notFulfilled = false ∧
    e.invalidIP u = false ∧ e.allocateFailed = false ∧ e.isAllocateIP = false := by
  cases e with
  | List ns filter res => simp [Event.isPatch, Event.isCommit, Event.patchFailed,
      Event.poolFailed, Event.poolNotFound, Event.getIPFailed, Event.notFulfilled,
      Event.invalidIP, Event.allocateFailed, Event.isAllocateIP]
  | Get key res => simp [Event.isPatch, Event.isCommit, Event.patchFailed,
      Event.poolFailed, Event.poolNotFound, Event.getIPFailed, Event.notFulfilled,
      Event.invalidIP, Event.allocateFailed, Event.isAllocateIP]
  | Patch obj base res => simp [Event.passes] at h
  | GetAvailableIPPool labels cluster res =>
    rcases res with e | _ | pool <;> simp_all [Event.passes, Event.isPatch, Event.isCommit,
      Event.patchFailed, Event.poolFailed, Event.poolNotFound, Event.getIPFailed,
      Event.notFulfilled, Event.invalidIP, Event.allocateFailed, Event.isAllocateIP]
  | GetIP name pool res =>
    rcases res with e | _ | ip <;> simp_all [Event.passes, Event.isPatch, Event.isCommit,
      Event.patchFailed, Event.poolFailed, Event.poolNotFound, Event.getIPFailed,
      Event.notFulfilled, Event.invalidIP, Event.allocateFailed, Event.isAllocateIP]
  | AllocateIP name pool owner res => simp [Event.passes] at h

theorem Halt.no_patch {u : Util} {tail : List Event} {res : Result} {err : Option Err}
    (h : Halt u tail res err) : ∀ e ∈ tail, e.isPatch = false := by
  cases h <;> simp [Event.isPatch]

theorem any_false_of_forall (f : Event → Bool) (l : List Event) (h : ∀ e ∈ l, f e = false) :
    l.any f = false := by
  simpa [List.any_eq_false] using h

theorem Object.devices_setDevices (ds : List NetworkDeviceSpec) (obj : Object) :
    (obj.setDevices ds).Devices = ds := by
  cases obj <;> rfl

theorem Object.setDevices_devices (obj : Object) : obj.setDevices obj.Devices = obj := by
  cases obj <;> rfl

/-- A pass in which the resolver found no pool, an address was not yet
fulfilled, or an address was invalid, issued no patch and left the object. -/
theorem PassShape.all_or_nothing {u : Util} {cluster : ObjectMeta} {obj : Object} {w : σ}
    {p : Pass σ} (hs : PassShape u cluster obj (St.init w) p)
    (hflag : p.st.log.any (fun e => e.poolNotFound || e.notFulfilled || e.invalidIP u) = true) :
    p.st.log.any Event.isPatch = false ∧ p.obj = some obj := by
  rcases hs with ⟨-, hst, -, -⟩ | ⟨ho, pre, tail, hlog, hpass, hhalt⟩ |
    ⟨pre, ds, r, hlog, hpass, -⟩
  · rw [hst] at hflag
    simp [St.init] at hflag
  · refine ⟨any_false_of_forall _ _ ?_, ho⟩
    intro e he
    rw [hlog] at he
    simp only [St.init, List.nil_append, List.mem_append] at he
    rcases he with he | he
    · exact (passes_flags u e (hpass e he)).1
    · exact hhalt.no_patch e he
  · exfalso
    rw [hlog] at hflag
    simp only [St.init, List.nil_append, List.any_append, List.any_cons, List.any_nil,
      Bool.or_false, Bool.or_eq_true, List.any_eq_true] at hflag
    rcases hflag with ⟨e, he, hf⟩ | hf
    · have := passes_flags u e (hpass e he)
      simp [this] at hf
    · simp [Event.poolNotFound, Event.notFulfilled, Event.invalidIP] at hf

/-- The committed patch of a pass: it is the last call, its base is the object,
and every device is carried into the patched list at its own index. -/
theorem PassShape.commit {u : Util} {cluster : ObjectMeta} {obj : Object} {w : σ}
    {p : Pass σ} (hs : PassShape u cluster obj (St.init w) p) {o b : Object}
    (hc : Event.Patch o b none ∈ p.st.log) :
    b = obj ∧ o.Devices.length = obj.Devices.length ∧
    ∀ j dev, obj.Devices[j]? = some dev →
      ∃ d, o.Devices[j]? = some d ∧ Carried u cluster obj.Meta.Name p.st.log j dev d := by
  rcases hs with ⟨-, hst, -, -⟩ | ⟨ho, pre, tail, hlog, hpass, hhalt⟩ |
    ⟨pre, ds, r, hlog, hpass, -, -, -, hlen, hrel⟩
  · rw [hst] at hc
    simp [St.init] at hc
  · exfalso
    rw [hlog] at hc
    simp only [St.init, List.nil_append, List.mem_append] at hc
    rcases hc with he | he
    · have := (passes_flags u _ (hpass _ he)).1
      simp [Event.isPatch] at this
    · have := hhalt.no_patch _ he
      simp [Event.isPatch] at this
  · rw [hlog] at hc
    simp only [St.init, List.nil_append, List.mem_append, List.mem_singleton] at hc
    rcases hc with he | he
    · have := (passes_flags u _ (hpass _ he)).1
      simp [Event.isPatch] at this
    · simp only [Event.Patch.injEq] at he
      obtain ⟨rfl, rfl, -⟩ := he
      refine ⟨rfl, by rw [Object.devices_setDevices]; exact hlen, ?_⟩
      intro j dev hj
      obtain ⟨d, hd, hcar⟩ := hrel j dev hj
      refine ⟨d, by rw [Object.devices_setDevices]; exact hd, hcar.mono ?_⟩
      intro e he
      rw [hlog]
      simp only [St.init, List.nil_append, List.mem_append]
      exact Or.inl he

/-! ## C1, C2, C3: what a pass commits -/

/-- C1 (all-or-nothing commit): for every world, helper set and object, a pass of
`reconcileVSphereMachineIPAddress`, and likewise of
`reconcileLoadBalancerIPAddress`, in which the pool resolver found no pool, an
address was not yet fulfilled or an address failed validation, issues no patch
and leaves the object, and so its device list, as it was at the start. -/
theorem all_or_nothing_commit (W : World σ) (u : Util) (cluster : ObjectMeta) (w : σ) :
    (∀ (vm : VSphereMachine) (p : Pass σ),
      reconcileVSphereMachineIPAddress W u cluster (some vm) (St.init w) = some p →
      p.st.log.any (fun e => e.poolNotFound || e.notFulfilled || e.invalidIP u) = true →
      p.st.log.any Event.isPatch = false ∧ p.obj = some (.VSphereMachine vm) ∧
        p.obj.map Object.Devices = some vm.Devices) ∧
    (∀ (lb : HAProxyLoadBalancer) (p : Pass σ),
      reconcileLoadBalancerIPAddress W u cluster (some lb) (St.init w) = some p →
      p.st.log.any (fun e => e.poolNotFound || e.notFulfilled || e.invalidIP u) = true →
      p.st.log.any Event.isPatch = false ∧ p.obj = some (.HAProxyLoadBalancer lb) ∧
        p.obj.map Object.Devices = some lb.Devices) := by
  constructor
  · intro vm p h hflag
    have hs := reconcileVSphereMachineIPAddress_shape W u cluster vm _ p h
    obtain ⟨h1, h2⟩ := hs.all_or_nothing hflag
    exact ⟨h1, h2, by rw [h2]; rfl⟩
  · intro lb p h hflag
    have hs := reconcileLoadBalancerIPAddress_shape W u cluster lb _ p h
    obtain ⟨h1, h2⟩ := hs.all_or_nothing hflag
    exact ⟨h1, h2, by rw [h2]; rfl⟩

/-- C1 at a machine and a load balancer with two static devices: the first is
transformed, the second is still pending, and nothing is committed. -/
theorem all_or_nothing_commit_witness :
    (∃ p, reconcileVSphereMachineIPAddress (scriptedWorld firstFulfilled) demoUtil demoCluster
        (some (demoVM [staticDev, staticDev])) (St.init []) = some p ∧
      p.st.log.any (fun e => e.poolNotFound || e.notFulfilled || e.invalidIP demoUtil) = true ∧
      p.st.log.any Event.isPatch = false ∧
      p.obj.map Object.Devices = some [staticDev, staticDev]) ∧
    (∃ p, reconcileLoadBalancerIPAddress (scriptedWorld firstFulfilled) demoUtil demoCluster
        (some (demoLB [staticDev, staticDev])) (St.init []) = some p ∧
      p.st.log.any (fun e => e.poolNotFound || e.notFulfilled || e.invalidIP demoUtil) = true ∧
      p.st.log.any Event.isPatch = false ∧
      p.obj.map Object.Devices = some [staticDev, staticDev]) :=
  ⟨⟨_, rfl, rfl,
      ((all_or_nothing_commit (scriptedWorld firstFulfilled) demoUtil demoCluster []).1
        (demoVM [staticDev, staticDev]) _ rfl rfl).1,
      ((all_or_nothing_commit (scriptedWorld firstFulfilled) demoUtil demoCluster []).1
        (demoVM [staticDev, staticDev]) _ rfl rfl).2.2⟩,
   ⟨_, rfl, rfl,
      ((all_or_nothing_commit (scriptedWorld firstFulfilled) demoUtil demoCluster []).2
        (demoLB [staticDev, staticDev]) _ rfl rfl).1,
      ((all_or_nothing_commit (scriptedWorld firstFulfilled) demoUtil demoCluster []).2
        (demoLB [staticDev, staticDev]) _ rfl rfl).2.2⟩⟩

theorem Carried.of_skip {u : Util} {cluster : ObjectMeta} {name : String} {new : List Event}
    {i : Nat} {dev d : NetworkDeviceSpec} (h : Carried u cluster name new i dev d)
    (hskip : u.IsDeviceIPAllocationDHCP dev = true ∨ 0 < dev.IPAddrs.length) : d = dev := by
  rcases h with ⟨-, h⟩ | ⟨hn, -⟩
  · exact h
  · exfalso
    rcases hskip with hd | hl
    · simp [needsAllocation, hd] at hn
    · simp only [needsAllocation, Bool.not_eq_true', Bool.or_eq_false_iff,
        decide_eq_false_iff_not] at hn
      exact hn.2 hl

theorem Carried.of_needs {u : Util} {cluster : ObjectMeta} {name : String} {new : List Event}
    {i : Nat} {dev d : NetworkDeviceSpec} (h : Carried u cluster name new i dev d)
    (hd : u.IsDeviceIPAllocationDHCP dev = false) (ha : dev.IPAddrs = []) :
    ∃ labels pool ip,
      Event.GetAvailableIPPool labels cluster (.ok (some pool)) ∈ new ∧
      Event.GetIP (u.GetFormattedClaimName name i) pool (.ok (some ip)) ∈ new ∧
      u.ValidateIP ip = none ∧ d = updateDevice dev ip pool := by
  rcases h with ⟨hn, -⟩ | ⟨-, h⟩
  · simp [needsAllocation, hd, ha] at hn
  · exact h

/-- C2 (devices that need no allocation are never modified): in every pass of
either controller that ends in a commit, the committed device list is as long as
the original one, and at every index whose original device is in `dhcp` mode or
already holds an address the committed device equals the original device. -/
theorem untouched_devices_kept (W : World σ) (u : Util) (cluster : ObjectMeta) (w : σ) :
    (∀ (vm : VSphereMachine) (p : Pass σ),
      reconcileVSphereMachineIPAddress W u cluster (some vm) (St.init w) = some p →
      ∀ o b, Event.Patch o b none ∈ p.st.log →
        o.Devices.length = vm.Devices.length ∧
        ∀ (i : Nat) dev, vm.Devices[i]? = some dev →
          (u.IsDeviceIPAllocationDHCP dev = true ∨ 0 < dev.IPAddrs.length) →
          o.Devices[i]? = some dev) ∧
    (∀ (lb : HAProxyLoadBalancer) (p : Pass σ),
      reconcileLoadBalancerIPAddress W u cluster (some lb) (St.init w) = some p →
      ∀ o b, Event.Patch o b none ∈ p.st.log →
        o.Devices.length = lb.Devices.length ∧
        ∀ (i : Nat) dev, lb.Devices[i]? = some dev →
          (u.IsDeviceIPAllocationDHCP dev = true ∨ 0 < dev.IPAddrs.length) →
          o.Devices[i]? = some dev) := by
  constructor
  · intro vm p h o b hc
    obtain ⟨-, hlen, hrel⟩ := (reconcileVSphereMachineIPAddress_shape W u cluster vm _ p h).commit hc
    refine ⟨hlen, fun i dev hi hskip => ?_⟩
    obtain ⟨d, hd, hcar⟩ := hrel i dev hi
    rw [hd, hcar.of_skip hskip]
  · intro lb p h o b hc
    obtain ⟨-, hlen, hrel⟩ := (reconcileLoadBalancerIPAddress_shape W u cluster lb _ p h).commit hc
    refine ⟨hlen, fun i dev hi hskip => ?_⟩
    obtain ⟨d, hd, hcar⟩ := hrel i dev hi
    rw [hd, hcar.of_skip hskip]

/-- C2 at a machine and a load balancer with an allocated device, a `dhcp`
device and a static device with no address: the pass commits, and the first two
devices are committed as they were. -/
theorem untouched_devices_kept_witness :
    (∃ p o b, reconcileVSphereMachineIPAddress (scriptedWorld allFulfilled) demoUtil demoCluster
        (some (demoVM [allocatedDev, dhcpDev, staticDev])) (St.init []) = some p ∧
      Event.Patch o b none ∈ p.st.log ∧ o.Devices.length = 3 ∧
      o.Devices[0]? = some allocatedDev ∧ o.Devices[1]? = some dhcpDev) ∧
    (∃ p o b, reconcileLoadBalancerIPAddress (scriptedWorld allFulfilled) demoUtil demoCluster
        (some (demoLB [allocatedDev, dhcpDev, staticDev])) (St.init []) = some p ∧
      Event.Patch o b none ∈ p.st.log ∧ o.Devices.length = 3 ∧
      o.Devices[0]? = some allocatedDev ∧ o.Devices[1]? = some dhcpDev) :=
  ⟨⟨_, _, _, rfl, List.Mem.tail _ (List.Mem.tail _ (List.Mem.head _)),
      ((untouched_devices_kept (scriptedWorld allFulfilled) demoUtil demoCluster []).1
        (demoVM [allocatedDev, dhcpDev, staticDev]) _ rfl _ _
        (List.Mem.tail _ (List.Mem.tail _ (List.Mem.head _)))).1,
      ((untouched_devices_kept (scriptedWorld allFulfilled) demoUtil demoCluster []).1
        (demoVM [allocatedDev, dhcpDev, staticDev]) _ rfl _ _
        (List.Mem.tail _ (List.Mem.tail _ (List.Mem.head _)))).2 0 allocatedDev rfl
        (Or.inr (by decide)),
      ((untouched_devices_kept (scriptedWorld allFulfilled) demoUtil demoCluster []).1
        (demoVM [allocatedDev, dhcpDev, staticDev]) _ rfl _ _
        (List.Mem.tail _ (List.Mem.tail _ (List.Mem.head _)))).2 1 dhcpDev rfl
        (Or.inl rfl)⟩,
   ⟨_, _, _, rfl, List.Mem.tail _ (List.Mem.tail _ (List.Mem.head _)),
      ((untouched_devices_kept (scriptedWorld allFulfilled) demoUtil demoCluster []).2
        (demoLB [allocatedDev, dhcpDev, staticDev]) _ rfl _ _
        (List.Mem.tail _ (List.Mem.tail _ (List.Mem.head _)))).1,
      ((untouched_devices_kept (scriptedWorld allFulfilled) demoUtil demoCluster []).2
        (demoLB [allocatedDev, dhcpDev, staticDev]) _ rfl _ _
        (List.Mem.tail _ (List.Mem.tail _ (List.Mem.head _)))).2 0 allocatedDev rfl
        (Or.inr (by decide)),
      ((untouched_devices_kept (scriptedWorld allFulfilled) demoUtil demoCluster []).2
        (demoLB [allocatedDev, dhcpDev, staticDev]) _ rfl _ _
        (List.Mem.tail _ (List.Mem.tail _ (List.Mem.head _)))).2 1 dhcpDev rfl
        (Or.inl rfl)⟩⟩

/-- C3 (device update rule): in every pass of either controller that ends in a
commit, a static device with no address at index `i` is committed with an address
list of exactly one element, the string `address/prefixLength` of a valid address
that `GetIP` returned for the claim name of index `i`, its IPv4 gateway set from
that address, its nameservers and search domains those of a pool the resolver
returned, and every other field unchanged. In the spec's scenario (address
`10.0.0.5`, prefix length 24, gateway `10.0.0.1`, pool nameservers `8.8.8.8` and
search domains `example.com`) the address list is `10.0.0.5/24`. -/
theorem device_update_rule (W : World σ) (u : Util) (cluster : ObjectMeta) (w : σ) :
    (∀ (vm : VSphereMachine) (p : Pass σ),
      reconcileVSphereMachineIPAddress W u cluster (some vm) (St.init w) = some p →
      ∀ o b, Event.Patch o b none ∈ p.st.log →
        ∀ (i : Nat) dev, vm.Devices[i]? = some dev →
          u.IsDeviceIPAllocationDHCP dev = false → dev.IPAddrs = [] →
          ∃ labels pool ip,
            Event.GetAvailableIPPool labels cluster (.ok (some pool)) ∈ p.st.log ∧
            Event.GetIP (u.GetFormattedClaimName vm.ObjectMeta.Name i) pool (.ok (some ip))
              ∈ p.st.log ∧
            u.ValidateIP ip = none ∧
            o.Devices[i]? = some { dev with
              IPAddrs := [GetAddress ip ++ "/" ++ toString (GetMask ip)]
              Gateway4 := GetGateway ip
              Nameservers := GetDNSServers pool
              SearchDomains := GetSearchDomains pool }) ∧
    (∀ (lb : HAProxyLoadBalancer) (p : Pass σ),
      reconcileLoadBalancerIPAddress W u cluster (some lb) (St.init w) = some p →
      ∀ o b, Event.Patch o b none ∈ p.st.log →
        ∀ (i : Nat) dev, lb.Devices[i]? = some dev →
          u.IsDeviceIPAllocationDHCP dev = false → dev.IPAddrs = [] →
          ∃ labels pool ip,
            Event.GetAvailableIPPool labels cluster (.ok (some pool)) ∈ p.st.log ∧
            Event.GetIP (u.GetFormattedClaimName lb.ObjectMeta.Name i) pool (.ok (some ip))
              ∈ p.st.log ∧
            u.ValidateIP ip = none ∧
            o.Devices[i]? = some { dev with
              IPAddrs := [GetAddress ip ++ "/" ++ toString (GetMask ip)]
              Gateway4 := GetGateway ip
              Nameservers := GetDNSServers pool
              SearchDomains := GetSearchDomains pool }) ∧
    (∀ (dev : NetworkDeviceSpec) (ip : IPAddress) (pool : IPPool),
      ip.Address = "10.0.0.5" → ip.Prefix = 24 → ip.Gateway = "10.0.0.1" →
      pool.Nameservers = ["8.8.8.8"] → pool.SearchDomains = ["example.com"] →
      updateDevice dev ip pool = { dev with
        IPAddrs := ["10.0.0.5/24"]
        Gateway4 := "10.0.0.1"
        Nameservers := ["8.8.8.8"]
        SearchDomains := ["example.com"] }) := by
  refine ⟨?_, ?_, ?_⟩
  · intro vm p h o b hc i dev hi hd ha
    obtain ⟨-, -, hrel⟩ := (reconcileVSphereMachineIPAddress_shape W u cluster vm _ p h).commit hc
    obtain ⟨d, hd1, hcar⟩ := hrel i dev hi
    obtain ⟨labels, pool, ip, h1, h2, h3, h4⟩ := hcar.of_needs hd ha
    exact ⟨labels, pool, ip, h1, h2, h3, by rw [hd1, h4]; rfl⟩
  · intro lb p h o b hc i dev hi hd ha
    obtain ⟨-, -, hrel⟩ := (reconcileLoadBalancerIPAddress_shape W u cluster lb _ p h).commit hc
    obtain ⟨d, hd1, hcar⟩ := hrel i dev hi
    obtain ⟨labels, pool, ip, h1, h2, h3, h4⟩ := hcar.of_needs hd ha
    exact ⟨labels, pool, ip, h1, h2, h3, by rw [hd1, h4]; rfl⟩
  · intro dev ip pool ha hp hg hn hs
    simp only [updateDevice, GetAddress, GetMask, GetGateway, GetDNSServers, GetSearchDomains,
      ha, hp, hg, hn, hs]
    rfl

/-- C3 on the spec's happy path with two devices, for a machine and for a load
balancer: the first device holds an address, the second is static with no
address and is committed with the address list `10.0.0.5/24`. -/
theorem device_update_rule_witness :
    (∃ p o b, reconcileVSphereMachineIPAddress (scriptedWorld allFulfilled) demoUtil demoCluster
        (some (demoVM [allocatedDev, staticDev])) (St.init []) = some p ∧
      Event.Patch o b none ∈ p.st.log ∧
      (∃ labels pool ip,
        Event.GetAvailableIPPool labels demoCluster (.ok (some pool)) ∈ p.st.log ∧
        Event.GetIP "vm-1" pool (.ok (some ip)) ∈ p.st.log ∧
        demoUtil.ValidateIP ip = none ∧
        o.Devices[1]? = some { staticDev with
          IPAddrs := [GetAddress ip ++ "/" ++ toString (GetMask ip)]
          Gateway4 := GetGateway ip
          Nameservers := GetDNSServers pool
          SearchDomains := GetSearchDomains pool }) ∧
      o.Devices = [allocatedDev, { staticDev with
        IPAddrs := ["10.0.0.5/24"]
        Gateway4 := "10.0.0.1"
        Nameservers := ["8.8.8.8"]
        SearchDomains := ["example.com"] }]) ∧
    (∃ p o b, reconcileLoadBalancerIPAddress (scriptedWorld allFulfilled) demoUtil demoCluster
        (some (demoLB [allocatedDev, staticDev])) (St.init []) = some p ∧
      Event.Patch o b none ∈ p.st.log ∧
      (∃ labels pool ip,
        Event.GetAvailableIPPool labels demoCluster (.ok (some pool)) ∈ p.st.log ∧
        Event.GetIP "lb-1" pool (.ok (some ip)) ∈ p.st.log ∧
        demoUtil.ValidateIP ip = none ∧
        o.Devices[1]? = some { staticDev with
          IPAddrs := [GetAddress ip ++ "/" ++ toString (GetMask ip)]
          Gateway4 := GetGateway ip
          Nameservers := GetDNSServers pool
          SearchDomains := GetSearchDomains pool }) ∧
      o.Devices = [allocatedDev, { staticDev with
        IPAddrs := ["10.0.0.5/24"]
        Gateway4 := "10.0.0.1"
        Nameservers := ["8.8.8.8"]
        SearchDomains := ["example.com"] }]) ∧
    updateDevice staticDev demoIP demoPool = { staticDev with
      IPAddrs := ["10.0.0.5/24"]
      Gateway4 := "10.0.0.1"
      Nameservers := ["8.8.8.8"]
      SearchDomains := ["example.com"] } :=
  ⟨⟨_, _, _, rfl, List.Mem.tail _ (List.Mem.tail _ (List.Mem.head _)),
      (device_update_rule (scriptedWorld allFulfilled) demoUtil demoCluster []).1
        (demoVM [allocatedDev, staticDev]) _ rfl _ _
        (List.Mem.tail _ (List.Mem.tail _ (List.Mem.head _))) 1 staticDev rfl rfl rfl,
      rfl⟩,
   ⟨_, _, _, rfl, List.Mem.tail _ (List.Mem.tail _ (List.Mem.head _)),
      (device_update_rule (scriptedWorld allFulfilled) demoUtil demoCluster []).2.1
        (demoLB [allocatedDev, staticDev]) _ rfl _ _
        (List.Mem.tail _ (List.Mem.tail _ (List.Mem.head _))) 1 staticDev rfl rfl rfl,
      rfl⟩,
   (device_update_rule (scriptedWorld allFulfilled) demoUtil demoCluster []).2.2
     staticDev demoIP demoPool rfl rfl rfl rfl rfl⟩

/-! ## Running the loop forward -/

/-- The loop passes over a prefix of devices that need no allocation with no
call, appending them as they are. -/
theorem deviceLoop_skip (u : Util) (f : Ipam σ) (msgs : Msgs) (cluster : ObjectMeta)
    (owner : Object) (ml : St σ → Option (Labels × St σ)) (pre : List NetworkDeviceSpec) :
    ∀ (i : Nat) (rest upd : List NetworkDeviceSpec) (s : St σ),
      (∀ d ∈ pre, needsAllocation u d = false) →
      deviceLoop u f msgs cluster owner ml i (pre ++ rest) upd s =
        deviceLoop u f msgs cluster owner ml (i + pre.length) rest (upd ++ pre) s := by
  induction pre with
  | nil => intro i rest upd s _; simp
  | cons d pre ih =>
    intro i rest upd s h
    have hd : needsAllocation u d = false := h d (List.mem_cons_self _ _)
    have hpre : ∀ d ∈ pre, needsAllocation u d = false :=
      fun x hx => h x (List.mem_cons_of_mem _ hx)
    rw [List.cons_append, deviceLoop, reconcileDevice_skip u f msgs cluster owner ml i d s hd]
    simp only
    rw [ih (i + 1) rest (upd ++ [d]) s hpre]
    have : i + 1 + pre.length = i + (d :: pre).length := by simp; omega
    rw [this, List.append_assoc, List.singleton_append]

theorem needsAllocation_of_allocated (u : Util) (d : NetworkDeviceSpec)
    (h : 0 < d.IPAddrs.length) : needsAllocation u d = false := by
  simp [needsAllocation, h]

/-- An object with a device that needs allocation is not in the object-level
DHCP shortcut. -/
theorem not_machineDHCP_of_needs (u : Util) (devices : List NetworkDeviceSpec)
    (dev : NetworkDeviceSpec) (hmem : dev ∈ devices) (h : needsAllocation u dev = true) :
    IsMachineIPAllocationDHCP u devices = false := by
  have hd : u.IsDeviceIPAllocationDHCP dev = false := by
    cases hc : u.IsDeviceIPAllocationDHCP dev
    · rfl
    · simp [needsAllocation, hc] at h
  cases hall : IsMachineIPAllocationDHCP u devices
  · rfl
  · simp only [IsMachineIPAllocationDHCP, List.all_eq_true] at hall
    rw [hall dev hmem] at hd
    exact absurd hd (by decide)

/-- A pass over an object whose devices all hold an address: it makes no call
when the device list is empty, every device is in `dhcp` mode or no provider is
registered, and otherwise exactly one call, the `Patch` of the unchanged object
against itself, whose error it returns. -/
theorem reconcileIPAddress_allocated (W : World σ) (u : Util) (msgs : Msgs)
    (cluster : ObjectMeta) (obj : Object) (ml : St σ → Option (Labels × St σ)) (s : St σ)
    (h : ∀ d ∈ obj.Devices, 0 < d.IPAddrs.length) :
    ∃ p, reconcileIPAddress W u msgs cluster obj ml s = some p ∧ p.obj = some obj ∧
      p.res = {} ∧
      ((p.st = s ∧ p.err = none) ∨
       (∃ r, p.st.log = s.log ++ [Event.Patch obj obj r] ∧ p.err.isSome = r.isSome)) ∧
      ((obj.Devices = [] ∨ IsMachineIPAllocationDHCP u obj.Devices = true ∨
          W.IpamFactory = none) → p.st = s ∧ p.err = none) ∧
      (obj.Devices ≠ [] → IsMachineIPAllocationDHCP u obj.Devices = false →
        W.IpamFactory ≠ none →
        p.st.world = (W.Client.Patch obj obj s.world).2 ∧
        p.st.log = s.log ++ [Event.Patch obj obj (W.Client.Patch obj obj s.world).1] ∧
        p.err.isSome = (W.Client.Patch obj obj s.world).1.isSome) := by
  have hloop : ∀ f : Ipam σ, deviceLoop u f msgs cluster obj ml 0 obj.Devices [] s =
      some (.done obj.Devices s) := by
    intro f
    have := deviceLoop_skip u f msgs cluster obj ml obj.Devices 0 [] [] s
      (fun d hd => needsAllocation_of_allocated u d (h d hd))
    rw [List.append_nil] at this
    rw [this]
    simp [deviceLoop]
  unfold reconcileIPAddress
  simp only
  split
  · rename_i hlen
    refine ⟨_, rfl, rfl, rfl, Or.inl ⟨rfl, rfl⟩, fun _ => ⟨rfl, rfl⟩, fun hne _ _ => ?_⟩
    exact absurd (List.length_eq_zero.1 hlen) hne
  · rename_i hlen
    split
    · rename_i hdhcp
      refine ⟨_, rfl, rfl, rfl, Or.inl ⟨rfl, rfl⟩, fun _ => ⟨rfl, rfl⟩, fun _ hnd _ => ?_⟩
      rw [hdhcp] at hnd
      exact absurd hnd (by decide)
    · rename_i hdhcp
      split
      · rename_i hf
        exact ⟨_, rfl, rfl, rfl, Or.inl ⟨rfl, rfl⟩, fun _ => ⟨rfl, rfl⟩,
          fun _ _ hnf => absurd hf hnf⟩
      · rename_i f hf
        have hno : ¬ (obj.Devices = [] ∨ IsMachineIPAllocationDHCP u obj.Devices = true ∨
            W.IpamFactory = none) := by
          rintro (h1 | h2 | h3)
          · exact hlen (by rw [h1]; rfl)
          · exact hdhcp h2
          · rw [hf] at h3
            exact absurd h3 (by simp)
        rw [hloop f]
        simp only [Object.setDevices_devices, callPatch]
        split
        · rename_i err s2 hp
          simp only [Prod.mk.injEq] at hp
          obtain ⟨hp1, rfl⟩ := hp
          exact ⟨_, rfl, rfl, rfl, Or.inr ⟨some err, by simp [hp1], rfl⟩,
            fun hc => absurd hc hno, fun _ _ _ => ⟨rfl, rfl, by simp [hp1]⟩⟩
        · rename_i s2 hp
          simp only [Prod.mk.injEq] at hp
          obtain ⟨hp1, rfl⟩ := hp
          exact ⟨_, rfl, rfl, rfl, Or.inr ⟨none, by simp [hp1], rfl⟩,
            fun hc => absurd hc hno, fun _ _ _ => ⟨rfl, rfl, by simp [hp1]⟩⟩

/-! ## C4: an object that is already allocated -/

/-- C4 as stated fails: a load balancer, and a machine, whose only device is
static and already holds an address; the pass still calls `Patch`. -/
theorem idempotence_counterexample :
    ¬ ((∀ d ∈ (demoLB [allocatedDev]).Devices, 0 < d.IPAddrs.length) →
        ∀ p, reconcileLoadBalancerIPAddress (scriptedWorld allFulfilled) demoUtil demoCluster
          (some (demoLB [allocatedDev])) (St.init []) = some p →
          p.st.log.any Event.isPatch = false) ∧
    ¬ ((∀ d ∈ (demoVM [allocatedDev]).Devices, 0 < d.IPAddrs.length) →
        ∀ p, reconcileVSphereMachineIPAddress (scriptedWorld allFulfilled) demoUtil demoCluster
          (some (demoVM [allocatedDev])) (St.init []) = some p →
          p.st.log.any Event.isPatch = false) := by
  constructor
  · intro h
    have hall : ∀ d ∈ (demoLB [allocatedDev]).Devices, 0 < d.IPAddrs.length := by
      intro d hd
      simp only [demoLB, List.mem_singleton] at hd
      subst hd
      decide
    exact absurd (h hall _ rfl) (by decide)
  · intro h
    have hall : ∀ d ∈ (demoVM [allocatedDev]).Devices, 0 < d.IPAddrs.length := by
      intro d hd
      simp only [demoVM, List.mem_singleton] at hd
      subst hd
      decide
    exact absurd (h hall _ rfl) (by decide)

/-- C4, amended: for every object whose devices all hold at least one address,
a pass of either controller, run once and then again from the state the first
pass left, never panics, leaves the in-memory object identical to the initial
one, and makes no call to the pool resolver or the allocation client. When the
device list is empty, every device is in `dhcp` mode or no provider is
registered, neither pass makes any call, and neither returns an error. Otherwise
each pass makes exactly one call: the `Patch` of the unchanged object, equal to
its base snapshot, and the pass returns an error exactly when that patch does. -/
theorem idempotence_amended (W : World σ) (u : Util) (cluster : ObjectMeta) (w : σ) :
    (∀ vm : VSphereMachine, (∀ d ∈ vm.Devices, 0 < d.IPAddrs.length) →
      ∃ p1 p2, reconcileVSphereMachineIPAddress W u cluster (some vm) (St.init w) = some p1 ∧
        reconcileVSphereMachineIPAddress W u cluster (some vm) p1.st = some p2 ∧
        p1.obj = some (.VSphereMachine vm) ∧ p2.obj = some (.VSphereMachine vm) ∧
        (p1.st.log = [] ∨
          ∃ r, p1.st.log = [Event.Patch (.VSphereMachine vm) (.VSphereMachine vm) r]) ∧
        (p2.st.log = p1.st.log ∨
          ∃ r, p2.st.log =
            p1.st.log ++ [Event.Patch (.VSphereMachine vm) (.VSphereMachine vm) r]) ∧
        ((vm.Devices = [] ∨ IsMachineIPAllocationDHCP u vm.Devices = true ∨
            W.IpamFactory = none) →
          p1.st = St.init w ∧ p1.err = none ∧ p2.st = St.init w ∧ p2.err = none) ∧
        (vm.Devices ≠ [] → IsMachineIPAllocationDHCP u vm.Devices = false →
          W.IpamFactory ≠ none →
          p1.st.world = (W.Client.Patch (.VSphereMachine vm) (.VSphereMachine vm) w).2 ∧
          p1.st.log = [Event.Patch (.VSphereMachine vm) (.VSphereMachine vm)
            (W.Client.Patch (.VSphereMachine vm) (.VSphereMachine vm) w).1] ∧
          p1.err.isSome = (W.Client.Patch (.VSphereMachine vm) (.VSphereMachine vm) w).1.isSome ∧
          p2.st.world = (W.Client.Patch (.VSphereMachine vm) (.VSphereMachine vm) p1.st.world).2 ∧
          p2.st.log = p1.st.log ++ [Event.Patch (.VSphereMachine vm) (.VSphereMachine vm)
            (W.Client.Patch (.VSphereMachine vm) (.VSphereMachine vm) p1.st.world).1] ∧
          p2.err.isSome =
            (W.Client.Patch (.VSphereMachine vm) (.VSphereMachine vm) p1.st.world).1.isSome)) ∧
    (∀ lb : HAProxyLoadBalancer, (∀ d ∈ lb.Devices, 0 < d.IPAddrs.length) →
      ∃ p1 p2, reconcileLoadBalancerIPAddress W u cluster (some lb) (St.init w) = some p1 ∧
        reconcileLoadBalancerIPAddress W u cluster (some lb) p1.st = some p2 ∧
        p1.obj = some (.HAProxyLoadBalancer lb) ∧ p2.obj = some (.HAProxyLoadBalancer lb) ∧
        (p1.st.log = [] ∨
          ∃ r, p1.st.log = [Event.Patch (.HAProxyLoadBalancer lb) (.HAProxyLoadBalancer lb) r]) ∧
        (p2.st.log = p1.st.log ∨
          ∃ r, p2.st.log =
            p1.st.log ++ [Event.Patch (.HAProxyLoadBalancer lb) (.HAProxyLoadBalancer lb) r]) ∧
        ((lb.Devices = [] ∨ IsMachineIPAllocationDHCP u lb.Devices = true ∨
            W.IpamFactory = none) →
          p1.st = St.init w ∧ p1.err = none ∧ p2.st = St.init w ∧ p2.err = none) ∧
        (lb.Devices ≠ [] → IsMachineIPAllocationDHCP u lb.Devices = false →
          W.IpamFactory ≠ none →
          p1.st.world = (W.Client.Patch (.HAProxyLoadBalancer lb) (.HAProxyLoadBalancer lb) w).2 ∧
          p1.st.log = [Event.Patch (.HAProxyLoadBalancer lb) (.HAProxyLoadBalancer lb)
            (W.Client.Patch (.HAProxyLoadBalancer lb) (.HAProxyLoadBalancer lb) w).1] ∧
          p1.err.isSome = (W.Client.Patch (.HAProxyLoadBalancer lb) (.HAProxyLoadBalancer lb) w).1.isSome ∧
          p2.st.world = (W.Client.Patch (.HAProxyLoadBalancer lb) (.HAProxyLoadBalancer lb) p1.st.world).2 ∧
          p2.st.log = p1.st.log ++ [Event.Patch (.HAProxyLoadBalancer lb) (.HAProxyLoadBalancer lb)
            (W.Client.Patch (.HAProxyLoadBalancer lb) (.HAProxyLoadBalancer lb) p1.st.world).1] ∧
          p2.err.isSome =
            (W.Client.Patch (.HAProxyLoadBalancer lb) (.HAProxyLoadBalancer lb) p1.st.world).1.isSome)) := by
  constructor
  · intro vm h
    obtain ⟨p1, h1, ho1, -, hl1, hn1, hy1⟩ := reconcileIPAddress_allocated W u vsphereMsgs cluster
      (.VSphereMachine vm) (getMatchLabels W.Client u cluster vm) (St.init w) h
    obtain ⟨p2, h2, ho2, -, hl2, hn2, hy2⟩ := reconcileIPAddress_allocated W u vsphereMsgs cluster
      (.VSphereMachine vm) (getMatchLabels W.Client u cluster vm) p1.st h
    refine ⟨p1, p2, h1, h2, ho1, ho2, ?_, ?_, ?_, ?_⟩
    · rcases hl1 with ⟨hs, -⟩ | ⟨r, hr, -⟩
      · exact Or.inl (by rw [hs]; rfl)
      · exact Or.inr ⟨r, by simpa [St.init] using hr⟩
    · rcases hl2 with ⟨hs, -⟩ | ⟨r, hr, -⟩
      · exact Or.inl (by rw [hs])
      · exact Or.inr ⟨r, hr⟩
    · intro hc
      obtain ⟨hs1, he1⟩ := hn1 hc
      obtain ⟨hs2, he2⟩ := hn2 hc
      exact ⟨hs1, he1, hs2.trans hs1, he2⟩
    · intro hne hnd hnf
      obtain ⟨a1, a2, a3⟩ := hy1 hne hnd hnf
      obtain ⟨b1, b2, b3⟩ := hy2 hne hnd hnf
      exact ⟨a1, by simpa [St.init] using a2, a3, b1, b2, b3⟩
  · intro lb h
    obtain ⟨p1, h1, ho1, -, hl1, hn1, hy1⟩ := reconcileIPAddress_allocated W u lbMsgs cluster
      (.HAProxyLoadBalancer lb) (fun s => some (lb.ObjectMeta.Labels, s)) (St.init w) h
    obtain ⟨p2, h2, ho2, -, hl2, hn2, hy2⟩ := reconcileIPAddress_allocated W u lbMsgs cluster
      (.HAProxyLoadBalancer lb) (fun s => some (lb.ObjectMeta.Labels, s)) p1.st h
    refine ⟨p1, p2, h1, h2, ho1, ho2, ?_, ?_, ?_, ?_⟩
    · rcases hl1 with ⟨hs, -⟩ | ⟨r, hr, -⟩
      · exact Or.inl (by rw [hs]; rfl)
      · exact Or.inr ⟨r, by simpa [St.init] using hr⟩
    · rcases hl2 with ⟨hs, -⟩ | ⟨r, hr, -⟩
      · exact Or.inl (by rw [hs])
      · exact Or.inr ⟨r, hr⟩
    · intro hc
      obtain ⟨hs1, he1⟩ := hn1 hc
      obtain ⟨hs2, he2⟩ := hn2 hc
      exact ⟨hs1, he1, hs2.trans hs1, he2⟩
    · intro hne hnd hnf
      obtain ⟨a1, a2, a3⟩ := hy1 hne hnd hnf
      obtain ⟨b1, b2, b3⟩ := hy2 hne hnd hnf
      exact ⟨a1, by simpa [St.init] using a2, a3, b1, b2, b3⟩

theorem allocatedDev_allocated :
    ∀ d ∈ [allocatedDev, allocatedDev], 0 < d.IPAddrs.length := by
  intro d hd
  simp only [List.mem_cons, List.mem_singleton, List.not_mem_nil, or_false, or_self] at hd
  subst hd
  decide

theorem allocatedDhcpDev_allocated :
    ∀ d ∈ [allocatedDhcpDev], 0 < d.IPAddrs.length := by
  intro d hd
  simp only [List.mem_singleton] at hd
  subst hd
  decide

/-- C4, amended, at a machine and a load balancer with two allocated static
devices, where each of the two passes issues one patch of the unchanged object,
and at a machine and a load balancer whose only device is in `dhcp` mode and
holds an address, where neither pass makes a call. -/
theorem idempotence_amended_witness :
    (∃ p1 p2, reconcileVSphereMachineIPAddress (scriptedWorld allFulfilled) demoUtil demoCluster
        (some (demoVM [allocatedDev, allocatedDev])) (St.init []) = some p1 ∧
      reconcileVSphereMachineIPAddress (scriptedWorld allFulfilled) demoUtil demoCluster
        (some (demoVM [allocatedDev, allocatedDev])) p1.st = some p2 ∧
      p1.obj = some (.VSphereMachine (demoVM [allocatedDev, allocatedDev])) ∧
      p2.obj = some (.VSphereMachine (demoVM [allocatedDev, allocatedDev])) ∧
      p1.st.log = [Event.Patch (.VSphereMachine (demoVM [allocatedDev, allocatedDev]))
        (.VSphereMachine (demoVM [allocatedDev, allocatedDev])) none] ∧
      p2.st.log = p1.st.log ++ [Event.Patch
        (.VSphereMachine (demoVM [allocatedDev, allocatedDev]))
        (.VSphereMachine (demoVM [allocatedDev, allocatedDev])) none] ∧
      p1.err.isSome = false ∧ p2.err.isSome = false) ∧
    (∃ p1 p2, reconcileLoadBalancerIPAddress (scriptedWorld allFulfilled) demoUtil demoCluster
        (some (demoLB [allocatedDev, allocatedDev])) (St.init []) = some p1 ∧
      reconcileLoadBalancerIPAddress (scriptedWorld allFulfilled) demoUtil demoCluster
        (some (demoLB [allocatedDev, allocatedDev])) p1.st = some p2 ∧
      p1.obj = some (.HAProxyLoadBalancer (demoLB [allocatedDev, allocatedDev])) ∧
      p2.obj = some (.HAProxyLoadBalancer (demoLB [allocatedDev, allocatedDev])) ∧
      p1.st.log = [Event.Patch (.HAProxyLoadBalancer (demoLB [allocatedDev, allocatedDev]))
        (.HAProxyLoadBalancer (demoLB [allocatedDev, allocatedDev])) none] ∧
      p2.st.log = p1.st.log ++ [Event.Patch
        (.HAProxyLoadBalancer (demoLB [allocatedDev, allocatedDev]))
        (.HAProxyLoadBalancer (demoLB [allocatedDev, allocatedDev])) none] ∧
      p1.err.isSome = false ∧ p2.err.isSome = false) ∧
    (∃ p1 p2, reconcileVSphereMachineIPAddress (scriptedWorld allFulfilled) demoUtil demoCluster
        (some (demoVM [allocatedDhcpDev])) (St.init []) = some p1 ∧
      reconcileVSphereMachineIPAddress (scriptedWorld allFulfilled) demoUtil demoCluster
        (some (demoVM [allocatedDhcpDev])) p1.st = some p2 ∧
      p1.st = St.init [] ∧ p1.err = none ∧ p2.st = St.init [] ∧ p2.err = none) ∧
    (∃ p1 p2, reconcileLoadBalancerIPAddress (scriptedWorld allFulfilled) demoUtil demoCluster
        (some (demoLB [allocatedDhcpDev])) (St.init []) = some p1 ∧
      reconcileLoadBalancerIPAddress (scriptedWorld allFulfilled) demoUtil demoCluster
        (some (demoLB [allocatedDhcpDev])) p1.st = some p2 ∧
      p1.st = St.init [] ∧ p1.err = none ∧ p2.st = St.init [] ∧ p2.err = none) := by
  have h := idempotence_amended (scriptedWorld allFulfilled) demoUtil demoCluster []
  refine ⟨?_, ?_, ?_, ?_⟩
  · obtain ⟨p1, p2, h1, h2, ho1, ho2, -, -, -, hy⟩ :=
      h.1 (demoVM [allocatedDev, allocatedDev]) allocatedDev_allocated
    obtain ⟨-, a2, a3, -, b2, b3⟩ := hy (by simp [demoVM]) (by decide) (by simp [scriptedWorld])
    exact ⟨p1, p2, h1, h2, ho1, ho2, a2, b2, a3, b3⟩
  · obtain ⟨p1, p2, h1, h2, ho1, ho2, -, -, -, hy⟩ :=
      h.2 (demoLB [allocatedDev, allocatedDev]) allocatedDev_allocated
    obtain ⟨-, a2, a3, -, b2, b3⟩ := hy (by simp [demoLB]) (by decide) (by simp [scriptedWorld])
    exact ⟨p1, p2, h1, h2, ho1, ho2, a2, b2, a3, b3⟩
  · obtain ⟨p1, p2, h1, h2, -, -, -, -, hn, -⟩ :=
      h.1 (demoVM [allocatedDhcpDev]) allocatedDhcpDev_allocated
    exact ⟨p1, p2, h1, h2, hn (Or.inr (Or.inl (by decide)))⟩
  · obtain ⟨p1, p2, h1, h2, -, -, -, -, hn, -⟩ :=
      h.2 (demoLB [allocatedDhcpDev]) allocatedDhcpDev_allocated
    exact ⟨p1, p2, h1, h2, hn (Or.inr (Or.inl (by decide)))⟩

/-! ## The first device that needs allocation -/

/-- The loop body on a device that needs allocation when the pool is found, the
address is not yet fulfilled and `AllocateIP` succeeds. -/
theorem reconcileDevice_pending (u : Util) (f : Ipam σ) (msgs : Msgs) (cluster : ObjectMeta)
    (owner : Object) (ml : St σ → Option (Labels × St σ)) (i : Nat) (dev : NetworkDeviceSpec)
    (s s1 : St σ) (labels : Labels) (pool : IPPool) (w2 w3 w4 : σ)
    (hdev : needsAllocation u dev = true) (hml : ml s = some (labels, s1))
    (hpool : f.GetAvailableIPPool labels cluster s1.world = (.ok (some pool), w2))
    (hget : f.GetIP (u.GetFormattedClaimName owner.Meta.Name i) pool w2 = (.ok none, w3))
    (halloc : f.AllocateIP (u.GetFormattedClaimName owner.Meta.Name i) pool owner w3
      = (none, w4)) :
    reconcileDevice u f msgs cluster owner ml i dev s =
      some (.ret { RequeueAfter := 30 * Second } none
        ⟨w4, s1.log ++ [Event.GetAvailableIPPool labels cluster (.ok (some pool)),
          Event.GetIP (u.GetFormattedClaimName owner.Meta.Name i) pool (.ok none),
          Event.AllocateIP (u.GetFormattedClaimName owner.Meta.Name i) pool owner none]⟩) := by
  have hc : (u.IsDeviceIPAllocationDHCP dev || decide (dev.IPAddrs.length > 0)) = false := by
    cases hb : (u.IsDeviceIPAllocationDHCP dev || decide (dev.IPAddrs.length > 0))
    · rfl
    · simp [needsAllocation, hb] at hdev
  simp [reconcileDevice, hc, hml, callGetAvailableIPPool, hpool, callGetIP, hget,
    callAllocateIP, halloc]

/-- The loop body on a device that needs allocation when the resolver finds no
pool. -/
theorem reconcileDevice_poolNotFound (u : Util) (f : Ipam σ) (msgs : Msgs)
    (cluster : ObjectMeta) (owner : Object) (ml : St σ → Option (Labels × St σ)) (i : Nat)
    (dev : NetworkDeviceSpec) (s s1 : St σ) (labels : Labels) (w2 : σ)
    (hdev : needsAllocation u dev = true) (hml : ml s = some (labels, s1))
    (hpool : f.GetAvailableIPPool labels cluster s1.world = (.ok none, w2)) :
    reconcileDevice u f msgs cluster owner ml i dev s =
      some (.ret {} none
        ⟨w2, s1.log ++ [Event.GetAvailableIPPool labels cluster (.ok none)]⟩) := by
  have hc : (u.IsDeviceIPAllocationDHCP dev || decide (dev.IPAddrs.length > 0)) = false := by
    cases hb : (u.IsDeviceIPAllocationDHCP dev || decide (dev.IPAddrs.length > 0))
    · rfl
    · simp [needsAllocation, hb] at hdev
  simp [reconcileDevice, hc, hml, callGetAvailableIPPool, hpool]

/-- A pass returns what the loop body returns at the first device that needs
allocation. -/
theorem reconcileIPAddress_first (W : World σ) (u : Util) (msgs : Msgs) (cluster : ObjectMeta)
    (obj : Object) (ml : St σ → Option (Labels × St σ)) (s : St σ) (f : Ipam σ)
    (pre post : List NetworkDeviceSpec) (dev : NetworkDeviceSpec) (res : Result)
    (err : Option Err) (s2 : St σ)
    (hdevs : obj.Devices = pre ++ dev :: post)
    (hpre : ∀ d ∈ pre, needsAllocation u d = false) (hdev : needsAllocation u dev = true)
    (hf : W.IpamFactory = some f)
    (hbody : reconcileDevice u f msgs cluster obj ml pre.length dev s = some (.ret res err s2)) :
    reconcileIPAddress W u msgs cluster obj ml s = some ⟨res, err, some obj, s2⟩ := by
  have hlen : ¬ obj.Devices.length = 0 := by simp [hdevs]
  have hdhcp : IsMachineIPAllocationDHCP u obj.Devices = false :=
    not_machineDHCP_of_needs u obj.Devices dev (by simp [hdevs]) hdev
  have hloop : deviceLoop u f msgs cluster obj ml 0 obj.Devices [] s =
      some (.ret res err s2) := by
    rw [hdevs, deviceLoop_skip u f msgs cluster obj ml pre 0 (dev :: post) [] s hpre, deviceLoop]
    simp only [Nat.zero_add, hbody]
  unfold reconcileIPAddress
  simp only [hlen, hdhcp, hf, hloop, if_false, Bool.false_eq_true]

theorem needsAllocation_of_static (u : Util) (dev : NetworkDeviceSpec)
    (hd : u.IsDeviceIPAllocationDHCP dev = false) (ha : dev.IPAddrs = []) :
    needsAllocation u dev = true := by
  simp [needsAllocation, hd, ha]

theorem needsAllocation_of_skip (u : Util) (dev : NetworkDeviceSpec)
    (h : u.IsDeviceIPAllocationDHCP dev = true ∨ 0 < dev.IPAddrs.length) :
    needsAllocation u dev = false := by
  rcases h with h | h <;> simp [needsAllocation, h]

theorem isLookup_flags (e : Event) (h : e.isLookup = true) :
    e.isPatch = false ∧ e.isGetIP = false ∧ e.isAllocateIP = false := by
  cases e <;> simp_all [Event.isLookup, Event.isPatch, Event.isGetIP, Event.isAllocateIP]

/-- The log of a selector-label computation started with an empty log holds
template lookups only. -/
theorem LabelStep.init_log {ml : St σ → Option (Labels × St σ)} (hml : LabelStep ml) {w : σ}
    {labels : Labels} {s1 : St σ} (h : ml (St.init w) = some (labels, s1)) :
    ∀ e ∈ s1.log, e.isLookup = true := by
  obtain ⟨new, hlog, hnew⟩ := hml _ _ _ h
  intro e he
  rw [hlog] at he
  simp only [St.init, List.nil_append] at he
  exact hnew e he

/-- A pass whose first device that needs allocation finds no pool. -/
theorem reconcileIPAddress_poolNotFound (W : World σ) (u : Util) (msgs : Msgs)
    (cluster : ObjectMeta) (obj : Object) (ml : St σ → Option (Labels × St σ))
    (hstep : LabelStep ml) (w : σ) (f : Ipam σ) (pre post : List NetworkDeviceSpec)
    (dev : NetworkDeviceSpec) (labels : Labels) (s1 : St σ) (w2 : σ)
    (hdevs : obj.Devices = pre ++ dev :: post)
    (hpre : ∀ d ∈ pre, needsAllocation u d = false) (hdev : needsAllocation u dev = true)
    (hf : W.IpamFactory = some f) (hml : ml (St.init w) = some (labels, s1))
    (hpool : f.GetAvailableIPPool labels cluster s1.world = (.ok none, w2)) :
    ∃ p, reconcileIPAddress W u msgs cluster obj ml (St.init w) = some p ∧
      p.err = none ∧ p.res = {} ∧ p.obj = some obj ∧ p.st.world = w2 ∧
      p.st.log = s1.log ++ [Event.GetAvailableIPPool labels cluster (.ok none)] ∧
      p.st.log.any Event.isPatch = false ∧ p.st.log.any Event.isGetIP = false ∧
      p.st.log.any Event.isAllocateIP = false := by
  have hlk := hstep.init_log hml
  refine ⟨_, reconcileIPAddress_first W u msgs cluster obj ml _ f pre post dev _ _ _ hdevs hpre
    hdev hf (reconcileDevice_poolNotFound u f msgs cluster obj ml pre.length dev _ s1 labels w2
      hdev hml hpool), rfl, rfl, rfl, rfl, rfl, ?_, ?_, ?_⟩
  · refine any_false_of_forall _ _ (fun e he => ?_)
    rcases List.mem_append.1 he with he | he
    · exact (isLookup_flags e (hlk e he)).1
    · simp only [List.mem_singleton] at he
      subst he
      rfl
  · refine any_false_of_forall _ _ (fun e he => ?_)
    rcases List.mem_append.1 he with he | he
    · exact (isLookup_flags e (hlk e he)).2.1
    · simp only [List.mem_singleton] at he
      subst he
      rfl
  · refine any_false_of_forall _ _ (fun e he => ?_)
    rcases List.mem_append.1 he with he | he
    · exact (isLookup_flags e (hlk e he)).2.2
    · simp only [List.mem_singleton] at he
      subst he
      rfl

/-! ## C6: pool not ready -/

/-- C6 (pool not ready): for every object of either controller whose first
static device with no address is `dev`, when a provider is registered and the
pool resolver returns no pool (and no error) for that device, the pass ends with
no error and no requeue delay, issues no patch and makes no `GetIP` or
`AllocateIP` call: its only call after the selector labels are computed is the
pool lookup. -/
theorem pool_not_ready (W : World σ) (u : Util) (cluster : ObjectMeta) (w : σ) (f : Ipam σ)
    (pre post : List NetworkDeviceSpec) (dev : NetworkDeviceSpec)
    (hpre : ∀ d ∈ pre, u.IsDeviceIPAllocationDHCP d = true ∨ 0 < d.IPAddrs.length)
    (hd : u.IsDeviceIPAllocationDHCP dev = false) (ha : dev.IPAddrs = [])
    (hf : W.IpamFactory = some f) :
    (∀ (vm : VSphereMachine) (labels : Labels) (s1 : St σ) (w2 : σ),
      vm.Devices = pre ++ dev :: post →
      getMatchLabels W.Client u cluster vm (St.init w) = some (labels, s1) →
      f.GetAvailableIPPool labels cluster s1.world = (.ok none, w2) →
      ∃ p, reconcileVSphereMachineIPAddress W u cluster (some vm) (St.init w) = some p ∧
        p.err = none ∧ p.res = { Requeue := false, RequeueAfter := 0 } ∧
        p.obj = some (.VSphereMachine vm) ∧
        p.st.log = s1.log ++ [Event.GetAvailableIPPool labels cluster (.ok none)] ∧
        p.st.log.any Event.isPatch = false ∧ p.st.log.any Event.isGetIP = false ∧
        p.st.log.any Event.isAllocateIP = false) ∧
    (∀ (lb : HAProxyLoadBalancer) (w2 : σ),
      lb.Devices = pre ++ dev :: post →
      f.GetAvailableIPPool lb.ObjectMeta.Labels cluster w = (.ok none, w2) →
      ∃ p, reconcileLoadBalancerIPAddress W u cluster (some lb) (St.init w) = some p ∧
        p.err = none ∧ p.res = { Requeue := false, RequeueAfter := 0 } ∧
        p.obj = some (.HAProxyLoadBalancer lb) ∧
        p.st.log = [Event.GetAvailableIPPool lb.ObjectMeta.Labels cluster (.ok none)] ∧
        p.st.log.any Event.isPatch = false ∧ p.st.log.any Event.isGetIP = false ∧
        p.st.log.any Event.isAllocateIP = false) := by
  have hpre1 : ∀ d ∈ pre, needsAllocation u d = false :=
    fun d hmem => needsAllocation_of_skip u d (hpre d hmem)
  have hdev := needsAllocation_of_static u dev hd ha
  constructor
  · intro vm labels s1 w2 hdevs hml hpool
    obtain ⟨p, h, h1, h2, h3, -, h5, h6, h7, h8⟩ :=
      reconcileIPAddress_poolNotFound W u vsphereMsgs cluster (.VSphereMachine vm) _
        (getMatchLabels_labelStep W.Client u cluster vm) w f pre post dev labels s1 w2 hdevs
        hpre1 hdev hf hml hpool
    exact ⟨p, h, h1, h2, h3, h5, h6, h7, h8⟩
  · intro lb w2 hdevs hpool
    obtain ⟨p, h, h1, h2, h3, -, h5, h6, h7, h8⟩ :=
      reconcileIPAddress_poolNotFound W u lbMsgs cluster (.HAProxyLoadBalancer lb) _
        (const_labelStep lb.ObjectMeta.Labels) w f pre post dev lb.ObjectMeta.Labels
        (St.init w) w2 hdevs hpre1 hdev hf rfl hpool
    exact ⟨p, h, h1, h2, h3, by simpa [St.init] using h5, h6, h7, h8⟩

theorem allocatedDev_skip (u : Util) :
    ∀ d ∈ [allocatedDev], u.IsDeviceIPAllocationDHCP d = true ∨ 0 < d.IPAddrs.length := by
  intro d hd
  simp only [List.mem_singleton] at hd
  subst hd
  exact Or.inr (by decide)

/-- C6 at a machine and a load balancer whose first device is allocated and
whose second and third are static with no address, in a world with no pool. -/
theorem pool_not_ready_witness :
    (∃ p, reconcileVSphereMachineIPAddress (scriptedWorld noPool) demoUtil demoCluster
        (some (demoVM [allocatedDev, staticDev, staticDev])) (St.init []) = some p ∧
      p.err = none ∧ p.res = { Requeue := false, RequeueAfter := 0 } ∧
      p.obj = some (.VSphereMachine (demoVM [allocatedDev, staticDev, staticDev])) ∧
      p.st.log = [Event.GetAvailableIPPool ∅ demoCluster (.ok none)] ∧
      p.st.log.any Event.isPatch = false ∧ p.st.log.any Event.isGetIP = false ∧
      p.st.log.any Event.isAllocateIP = false) ∧
    (∃ p, reconcileLoadBalancerIPAddress (scriptedWorld noPool) demoUtil demoCluster
        (some (demoLB [allocatedDev, staticDev, staticDev])) (St.init []) = some p ∧
      p.err = none ∧ p.res = { Requeue := false, RequeueAfter := 0 } ∧
      p.obj = some (.HAProxyLoadBalancer (demoLB [allocatedDev, staticDev, staticDev])) ∧
      p.st.log = [Event.GetAvailableIPPool ∅ demoCluster (.ok none)] ∧
      p.st.log.any Event.isPatch = false ∧ p.st.log.any Event.isGetIP = false ∧
      p.st.log.any Event.isAllocateIP = false) :=
  ⟨(pool_not_ready (scriptedWorld noPool) demoUtil demoCluster [] (scriptedIpam noPool)
      [allocatedDev] [staticDev] staticDev (allocatedDev_skip demoUtil) rfl rfl rfl).1
      (demoVM [allocatedDev, staticDev, staticDev]) ∅ (St.init []) [] rfl rfl rfl,
   (pool_not_ready (scriptedWorld noPool) demoUtil demoCluster [] (scriptedIpam noPool)
      [allocatedDev] [staticDev] staticDev (allocatedDev_skip demoUtil) rfl rfl rfl).2
      (demoLB [allocatedDev, staticDev, staticDev]) [] rfl rfl⟩

/-! ## C5: claim pending -/

/-- A pass whose first device that needs allocation has a pool, no address yet,
and a successful `AllocateIP`. -/
theorem reconcileIPAddress_pending (W : World σ) (u : Util) (msgs : Msgs) (cluster : ObjectMeta)
    (obj : Object) (ml : St σ → Option (Labels × St σ)) (s : St σ) (f : Ipam σ)
    (pre post : List NetworkDeviceSpec) (dev : NetworkDeviceSpec) (labels : Labels)
    (s1 : St σ) (pool : IPPool) (w2 w3 w4 : σ)
    (hdevs : obj.Devices = pre ++ dev :: post)
    (hpre : ∀ d ∈ pre, needsAllocation u d = false) (hdev : needsAllocation u dev = true)
    (hf : W.IpamFactory = some f) (hml : ml s = some (labels, s1))
    (hpool : f.GetAvailableIPPool labels cluster s1.world = (.ok (some pool), w2))
    (hget : f.GetIP (u.GetFormattedClaimName obj.Meta.Name pre.length) pool w2 = (.ok none, w3))
    (halloc : f.AllocateIP (u.GetFormattedClaimName obj.Meta.Name pre.length) pool obj w3
      = (none, w4)) :
    reconcileIPAddress W u msgs cluster obj ml s =
      some ⟨{ RequeueAfter := 30 * Second }, none, some obj,
        ⟨w4, s1.log ++ [Event.GetAvailableIPPool labels cluster (.ok (some pool)),
          Event.GetIP (u.GetFormattedClaimName obj.Meta.Name pre.length) pool (.ok none),
          Event.AllocateIP (u.GetFormattedClaimName obj.Meta.Name pre.length) pool obj none]⟩⟩ :=
  reconcileIPAddress_first W u msgs cluster obj ml s f pre post dev _ _ _ hdevs hpre hdev hf
    (reconcileDevice_pending u f msgs cluster obj ml pre.length dev s s1 labels pool w2 w3 w4
      hdev hml hpool hget halloc)

/-- The calls of a pending pass, read off its log. -/
theorem pending_log (lk : List Event) (hlk : ∀ e ∈ lk, e.isLookup = true) (labels : Labels)
    (cluster : ObjectMeta) (pool : IPPool) (name : String) (obj : Object) :
    (lk ++ [Event.GetAvailableIPPool labels cluster (.ok (some pool)),
        Event.GetIP name pool (.ok none), Event.AllocateIP name pool obj none]).any
      Event.isPatch = false ∧
    (lk ++ [Event.GetAvailableIPPool labels cluster (.ok (some pool)),
        Event.GetIP name pool (.ok none), Event.AllocateIP name pool obj none]).filter
      Event.isGetIP = [Event.GetIP name pool (.ok none)] ∧
    (lk ++ [Event.GetAvailableIPPool labels cluster (.ok (some pool)),
        Event.GetIP name pool (.ok none), Event.AllocateIP name pool obj none]).filter
      Event.isAllocateIP = [Event.AllocateIP name pool obj none] := by
  have h1 : lk.filter Event.isGetIP = [] :=
    List.filter_eq_nil_iff.2 (fun e he => by simp [(isLookup_flags e (hlk e he)).2.1])
  have h2 : lk.filter Event.isAllocateIP = [] :=
    List.filter_eq_nil_iff.2 (fun e he => by simp [(isLookup_flags e (hlk e he)).2.2])
  refine ⟨any_false_of_forall _ _ (fun e he => ?_), ?_, ?_⟩
  · rcases List.mem_append.1 he with he | he
    · exact (isLookup_flags e (hlk e he)).1
    · simp only [List.mem_cons, List.mem_singleton, List.not_mem_nil, or_false] at he
      rcases he with rfl | rfl | rfl <;> rfl
  · rw [List.filter_append, h1]
    simp [List.filter, Event.isGetIP]
  · rw [List.filter_append, h2]
    simp [List.filter, Event.isAllocateIP]

/-- The template lookup of `getMatchLabels` leaves the claims of a
create-if-absent provider alone. -/
theorem getMatchLabels_count (c : Client σ) (f : Ipam σ) (count : σ → String → Nat)
    (hc : CreateIfAbsent c f count) (u : Util) (clusterMeta : ObjectMeta) (vm : VSphereMachine)
    (s s1 : St σ) (labels : Labels) (h : getMatchLabels c u clusterMeta vm s = some (labels, s1))
    (n : String) : count s1.world n = count s.world n := by
  unfold getMatchLabels at h
  simp only [callList, callGet] at h
  split at h
  · split at h
    · rename_i e s2 hl
      simp only [Prod.mk.injEq] at hl
      obtain ⟨-, rfl⟩ := hl
      simp only [Option.some.injEq, Prod.mk.injEq] at h
      obtain ⟨-, rfl⟩ := h
      exact hc.list _ _ _ n
    · rename_i items s2 hl
      simp only [Prod.mk.injEq] at hl
      obtain ⟨-, rfl⟩ := hl
      split at h
      · exact absurd h (by simp)
      · split at h
        · rename_i e s3 hg
          simp only [Prod.mk.injEq] at hg
          obtain ⟨-, rfl⟩ := hg
          simp only [Option.some.injEq, Prod.mk.injEq] at h
          obtain ⟨-, rfl⟩ := h
          exact (hc.get _ _ n).trans (hc.list _ _ _ n)
        · rename_i t s3 hg
          simp only [Prod.mk.injEq] at hg
          obtain ⟨-, rfl⟩ := hg
          simp only [Option.some.injEq, Prod.mk.injEq] at h
          obtain ⟨-, rfl⟩ := h
          exact (hc.get _ _ n).trans (hc.list _ _ _ n)
  · simp only [Option.some.injEq, Prod.mk.injEq] at h
    obtain ⟨-, rfl⟩ := h
    rfl

theorem pair_of_fst {α β : Type} (x : α × β) (a : α) (h : x.1 = a) : x = (a, x.2) :=
  Prod.ext h rfl

/-- A pending pass against a create-if-absent provider, from any state: it
returns the 30-second requeue and leaves one claim of the device's claim name
when there was none, and as many as there were otherwise. -/
theorem reconcileIPAddress_pending_count (W : World σ) (u : Util) (msgs : Msgs)
    (cluster : ObjectMeta) (obj : Object) (ml : St σ → Option (Labels × St σ)) (f : Ipam σ)
    (count : σ → String → Nat) (pre post : List NetworkDeviceSpec) (dev : NetworkDeviceSpec)
    (hdevs : obj.Devices = pre ++ dev :: post)
    (hpre : ∀ d ∈ pre, needsAllocation u d = false) (hdev : needsAllocation u dev = true)
    (hf : W.IpamFactory = some f) (hc : CreateIfAbsent W.Client f count)
    (hml : ∀ s, ∃ l s1, ml s = some (l, s1) ∧ ∀ n, count s1.world n = count s.world n)
    (hpool : ∀ l w1, ∃ pool, (f.GetAvailableIPPool l cluster w1).1 = .ok (some pool))
    (hget : ∀ pool w1,
      (f.GetIP (u.GetFormattedClaimName obj.Meta.Name pre.length) pool w1).1 = .ok none)
    (halloc : ∀ pool w1,
      (f.AllocateIP (u.GetFormattedClaimName obj.Meta.Name pre.length) pool obj w1).1 = none)
    (s : St σ) :
    ∃ p, reconcileIPAddress W u msgs cluster obj ml s = some p ∧
      p.res = { RequeueAfter := 30 * Second } ∧ p.err = none ∧ p.obj = some obj ∧
      count p.st.world (u.GetFormattedClaimName obj.Meta.Name pre.length) =
        if count s.world (u.GetFormattedClaimName obj.Meta.Name pre.length) = 0 then 1
        else count s.world (u.GetFormattedClaimName obj.Meta.Name pre.length) := by
  obtain ⟨l, s1, hl, hcount⟩ := hml s
  obtain ⟨pool, hp⟩ := hpool l s1.world
  have hp2 := pair_of_fst (f.GetAvailableIPPool l cluster s1.world) _ hp
  have hg2 := pair_of_fst _ _ (hget pool (f.GetAvailableIPPool l cluster s1.world).2)
  have ha := halloc pool (f.GetIP (u.GetFormattedClaimName obj.Meta.Name pre.length) pool
      (f.GetAvailableIPPool l cluster s1.world).2).2
  have ha2 := pair_of_fst _ _ ha
  refine ⟨_, reconcileIPAddress_pending W u msgs cluster obj ml s f pre post dev l s1 pool _ _ _
    hdevs hpre hdev hf hl hp2 hg2 ha2, rfl, rfl, rfl, ?_⟩
  simp only
  rw [hc.allocate _ _ _ _ ha, hc.getIP, hc.pool, hcount]

/-- C5 (claim pending): let `dev` be the first static device with no address of
an object of either controller, at index `pre.length` of the full device list,
with a provider registered. When the pool resolver returns a pool, `GetIP`
returns nil for the claim name of that index and `AllocateIP` succeeds, the pass
returns no error and a requeue hint of exactly 30 seconds, leaves the object,
issues no patch, and ends with the `AllocateIP` call: it calls `GetIP` once and
`AllocateIP` once, both with the claim name derived from the object name and
that index. With a create-if-absent provider and at most one claim of that name
in the store, running the pass and then running it again before fulfilment
leaves exactly one claim of that name. -/
theorem claim_pending (W : World σ) (u : Util) (cluster : ObjectMeta) (w : σ) (f : Ipam σ)
    (pre post : List NetworkDeviceSpec) (dev : NetworkDeviceSpec)
    (hpre : ∀ d ∈ pre, u.IsDeviceIPAllocationDHCP d = true ∨ 0 < d.IPAddrs.length)
    (hd : u.IsDeviceIPAllocationDHCP dev = false) (ha : dev.IPAddrs = [])
    (hf : W.IpamFactory = some f) :
    (∀ (vm : VSphereMachine) (labels : Labels) (s1 : St σ) (pool : IPPool) (w2 w3 w4 : σ),
      vm.Devices = pre ++ dev :: post →
      getMatchLabels W.Client u cluster vm (St.init w) = some (labels, s1) →
      f.GetAvailableIPPool labels cluster s1.world = (.ok (some pool), w2) →
      f.GetIP (u.GetFormattedClaimName vm.ObjectMeta.Name pre.length) pool w2 = (.ok none, w3) →
      f.AllocateIP (u.GetFormattedClaimName vm.ObjectMeta.Name pre.length) pool
        (.VSphereMachine vm) w3 = (none, w4) →
      ∃ p, reconcileVSphereMachineIPAddress W u cluster (some vm) (St.init w) = some p ∧
        p.err = none ∧ p.res = { Requeue := false, RequeueAfter := 30 * Second } ∧
        p.obj = some (.VSphereMachine vm) ∧ p.st.world = w4 ∧
        p.st.log = s1.log ++ [Event.GetAvailableIPPool labels cluster (.ok (some pool)),
          Event.GetIP (u.GetFormattedClaimName vm.ObjectMeta.Name pre.length) pool (.ok none),
          Event.AllocateIP (u.GetFormattedClaimName vm.ObjectMeta.Name pre.length) pool
            (.VSphereMachine vm) none] ∧
        p.st.log.any Event.isPatch = false ∧
        p.st.log.filter Event.isGetIP =
          [Event.GetIP (u.GetFormattedClaimName vm.ObjectMeta.Name pre.length) pool (.ok none)] ∧
        p.st.log.filter Event.isAllocateIP =
          [Event.AllocateIP (u.GetFormattedClaimName vm.ObjectMeta.Name pre.length) pool
            (.VSphereMachine vm) none]) ∧
    (∀ (lb : HAProxyLoadBalancer) (pool : IPPool) (w2 w3 w4 : σ),
      lb.Devices = pre ++ dev :: post →
      f.GetAvailableIPPool lb.ObjectMeta.Labels cluster w = (.ok (some pool), w2) →
      f.GetIP (u.GetFormattedClaimName lb.ObjectMeta.Name pre.length) pool w2 = (.ok none, w3) →
      f.AllocateIP (u.GetFormattedClaimName lb.ObjectMeta.Name pre.length) pool
        (.HAProxyLoadBalancer lb) w3 = (none, w4) →
      ∃ p, reconcileLoadBalancerIPAddress W u cluster (some lb) (St.init w) = some p ∧
        p.err = none ∧ p.res = { Requeue := false, RequeueAfter := 30 * Second } ∧
        p.obj = some (.HAProxyLoadBalancer lb) ∧ p.st.world = w4 ∧
        p.st.log = [Event.GetAvailableIPPool lb.ObjectMeta.Labels cluster (.ok (some pool)),
          Event.GetIP (u.GetFormattedClaimName lb.ObjectMeta.Name pre.length) pool (.ok none),
          Event.AllocateIP (u.GetFormattedClaimName lb.ObjectMeta.Name pre.length) pool
            (.HAProxyLoadBalancer lb) none] ∧
        p.st.log.any Event.isPatch = false ∧
        p.st.log.filter Event.isGetIP =
          [Event.GetIP (u.GetFormattedClaimName lb.ObjectMeta.Name pre.length) pool (.ok none)] ∧
        p.st.log.filter Event.isAllocateIP =
          [Event.AllocateIP (u.GetFormattedClaimName lb.ObjectMeta.Name pre.length) pool
            (.HAProxyLoadBalancer lb) none]) ∧
    (∀ (vm : VSphereMachine) (count : σ → String → Nat),
      vm.Devices = pre ++ dev :: post →
      CreateIfAbsent W.Client f count →
      (∀ s, (getMatchLabels W.Client u cluster vm s).isSome = true) →
      (∀ l w1, ∃ pool, (f.GetAvailableIPPool l cluster w1).1 = .ok (some pool)) →
      (∀ pool w1,
        (f.GetIP (u.GetFormattedClaimName vm.ObjectMeta.Name pre.length) pool w1).1 = .ok none) →
      (∀ pool w1, (f.AllocateIP (u.GetFormattedClaimName vm.ObjectMeta.Name pre.length) pool
        (.VSphereMachine vm) w1).1 = none) →
      count w (u.GetFormattedClaimName vm.ObjectMeta.Name pre.length) ≤ 1 →
      ∃ p1 p2, reconcileVSphereMachineIPAddress W u cluster (some vm) (St.init w) = some p1 ∧
        reconcileVSphereMachineIPAddress W u cluster (some vm) p1.st = some p2 ∧
        p1.res = { Requeue := false, RequeueAfter := 30 * Second } ∧ p1.err = none ∧
        p2.res = { Requeue := false, RequeueAfter := 30 * Second } ∧ p2.err = none ∧
        count p1.st.world (u.GetFormattedClaimName vm.ObjectMeta.Name pre.length) = 1 ∧
        count p2.st.world (u.GetFormattedClaimName vm.ObjectMeta.Name pre.length) = 1) ∧
    (∀ (lb : HAProxyLoadBalancer) (count : σ → String → Nat),
      lb.Devices = pre ++ dev :: post →
      CreateIfAbsent W.Client f count →
      (∀ l w1, ∃ pool, (f.GetAvailableIPPool l cluster w1).1 = .ok (some pool)) →
      (∀ pool w1,
        (f.GetIP (u.GetFormattedClaimName lb.ObjectMeta.Name pre.length) pool w1).1 = .ok none) →
      (∀ pool w1, (f.AllocateIP (u.GetFormattedClaimName lb.ObjectMeta.Name pre.length) pool
        (.HAProxyLoadBalancer lb) w1).1 = none) →
      count w (u.GetFormattedClaimName lb.ObjectMeta.Name pre.length) ≤ 1 →
      ∃ p1 p2, reconcileLoadBalancerIPAddress W u cluster (some lb) (St.init w) = some p1 ∧
        reconcileLoadBalancerIPAddress W u cluster (some lb) p1.st = some p2 ∧
        p1.res = { Requeue := false, RequeueAfter := 30 * Second } ∧ p1.err = none ∧
        p2.res = { Requeue := false, RequeueAfter := 30 * Second } ∧ p2.err = none ∧
        count p1.st.world (u.GetFormattedClaimName lb.ObjectMeta.Name pre.length) = 1 ∧
        count p2.st.world (u.GetFormattedClaimName lb.ObjectMeta.Name pre.length) = 1) := by
  have hpre1 : ∀ d ∈ pre, needsAllocation u d = false :=
    fun d hmem => needsAllocation_of_skip u d (hpre d hmem)
  have hdev := needsAllocation_of_static u dev hd ha
  have hone : ∀ k : Nat, k ≤ 1 → (if k = 0 then 1 else k) = 1 := by
    intro k hk
    split <;> omega
  refine ⟨?_, ?_, ?_, ?_⟩
  · intro vm labels s1 pool w2 w3 w4 hdevs hml hpool hget halloc
    have hrun := reconcileIPAddress_pending W u vsphereMsgs cluster (.VSphereMachine vm)
      (getMatchLabels W.Client u cluster vm) (St.init w) f pre post dev labels s1 pool w2 w3 w4
      hdevs hpre1 hdev hf hml hpool hget halloc
    have hlk := (getMatchLabels_labelStep W.Client u cluster vm).init_log hml
    obtain ⟨h1, h2, h3⟩ := pending_log s1.log hlk labels cluster pool
      (u.GetFormattedClaimName vm.ObjectMeta.Name pre.length) (.VSphereMachine vm)
    exact ⟨_, hrun, rfl, rfl, rfl, rfl, rfl, h1, h2, h3⟩
  · intro lb pool w2 w3 w4 hdevs hpool hget halloc
    have hrun := reconcileIPAddress_pending W u lbMsgs cluster (.HAProxyLoadBalancer lb)
      (fun s => some (lb.ObjectMeta.Labels, s)) (St.init w) f pre post dev lb.ObjectMeta.Labels
      (St.init w) pool w2 w3 w4 hdevs hpre1 hdev hf rfl hpool hget halloc
    obtain ⟨h1, h2, h3⟩ := pending_log [] (by simp) lb.ObjectMeta.Labels cluster pool
      (u.GetFormattedClaimName lb.ObjectMeta.Name pre.length) (.HAProxyLoadBalancer lb)
    exact ⟨_, hrun, rfl, rfl, rfl, rfl, rfl, h1, h2, h3⟩
  · intro vm count hdevs hc hsome hpool hget halloc hcount
    have hml : ∀ s, ∃ l s1, getMatchLabels W.Client u cluster vm s = some (l, s1) ∧
        ∀ n, count s1.world n = count s.world n := by
      intro s
      have := hsome s
      rcases hres : getMatchLabels W.Client u cluster vm s with _ | ⟨l, s1⟩
      · rw [hres] at this
        exact absurd this (by simp)
      · exact ⟨l, s1, rfl, getMatchLabels_count W.Client f count hc u cluster vm s s1 l hres⟩
    obtain ⟨p1, hp1, hr1, he1, -, hc1⟩ := reconcileIPAddress_pending_count W u vsphereMsgs
      cluster (.VSphereMachine vm) _ f count pre post dev hdevs hpre1 hdev hf hc hml hpool hget
      halloc (St.init w)
    obtain ⟨p2, hp2, hr2, he2, -, hc2⟩ := reconcileIPAddress_pending_count W u vsphereMsgs
      cluster (.VSphereMachine vm) _ f count pre post dev hdevs hpre1 hdev hf hc hml hpool hget
      halloc p1.st
    have h1 : count p1.st.world (u.GetFormattedClaimName vm.ObjectMeta.Name pre.length) = 1 := by
      exact hc1.trans (hone _ hcount)
    refine ⟨p1, p2, hp1, hp2, hr1, he1, hr2, he2, h1, ?_⟩
    exact hc2.trans (hone _ (le_of_eq h1))
  · intro lb count hdevs hc hpool hget halloc hcount
    have hml : ∀ s : St σ, ∃ l s1, (fun s => some (lb.ObjectMeta.Labels, s)) s = some (l, s1) ∧
        ∀ n, count s1.world n = count s.world n :=
      fun s => ⟨_, s, rfl, fun _ => rfl⟩
    obtain ⟨p1, hp1, hr1, he1, -, hc1⟩ := reconcileIPAddress_pending_count W u lbMsgs
      cluster (.HAProxyLoadBalancer lb) _ f count pre post dev hdevs hpre1 hdev hf hc hml hpool
      hget halloc (St.init w)
    obtain ⟨p2, hp2, hr2, he2, -, hc2⟩ := reconcileIPAddress_pending_count W u lbMsgs
      cluster (.HAProxyLoadBalancer lb) _ f count pre post dev hdevs hpre1 hdev hf hc hml hpool
      hget halloc p1.st
    have h1 : count p1.st.world (u.GetFormattedClaimName lb.ObjectMeta.Name pre.length) = 1 := by
      exact hc1.trans (hone _ hcount)
    refine ⟨p1, p2, hp1, hp2, hr1, he1, hr2, he2, h1, ?_⟩
    exact hc2.trans (hone _ (le_of_eq h1))

/-- The scripted provider with a succeeding `AllocateIP` is create-if-absent. -/
theorem scripted_createIfAbsent (sc : Script) (h : sc.allocate = none) :
    CreateIfAbsent (scriptedClient sc) (scriptedIpam sc) (fun w n => w.count n) := by
  refine ⟨fun _ _ _ _ => rfl, fun _ _ _ => rfl, fun _ _ _ _ => rfl, fun _ _ _ _ => rfl, ?_⟩
  intro name p o w _
  simp only [scriptedIpam, h]
  by_cases hn : name ∈ w
  · have hpos : 0 < w.count name := List.count_pos_iff.2 hn
    have hne : w.count name ≠ 0 := by omega
    simp [hn, hne]
  · have hz : w.count name = 0 := List.count_eq_zero.2 hn
    simp [hn, hz]

/-- C5 at a machine and a load balancer whose first device is allocated and
whose second and third are static with no address, in a world where no address
is fulfilled yet and the store holds no claim. -/
theorem claim_pending_witness :
    (∃ p, reconcileVSphereMachineIPAddress (scriptedWorld neverFulfilled) demoUtil demoCluster
        (some (demoVM [allocatedDev, staticDev, staticDev])) (St.init []) = some p ∧
      p.err = none ∧ p.res = { Requeue := false, RequeueAfter := 30 * Second } ∧
      p.st.world = ["vm-1"] ∧ p.st.log.any Event.isPatch = false ∧
      p.st.log.filter Event.isAllocateIP = [Event.AllocateIP "vm-1" demoPool
        (.VSphereMachine (demoVM [allocatedDev, staticDev, staticDev])) none]) ∧
    (∃ p, reconcileLoadBalancerIPAddress (scriptedWorld neverFulfilled) demoUtil demoCluster
        (some (demoLB [allocatedDev, staticDev, staticDev])) (St.init []) = some p ∧
      p.err = none ∧ p.res = { Requeue := false, RequeueAfter := 30 * Second } ∧
      p.st.world = ["lb-1"] ∧ p.st.log.any Event.isPatch = false ∧
      p.st.log.filter Event.isAllocateIP = [Event.AllocateIP "lb-1" demoPool
        (.HAProxyLoadBalancer (demoLB [allocatedDev, staticDev, staticDev])) none]) ∧
    (∃ p1 p2, reconcileVSphereMachineIPAddress (scriptedWorld neverFulfilled) demoUtil
        demoCluster (some (demoVM [allocatedDev, staticDev, staticDev])) (St.init []) = some p1 ∧
      reconcileVSphereMachineIPAddress (scriptedWorld neverFulfilled) demoUtil demoCluster
        (some (demoVM [allocatedDev, staticDev, staticDev])) p1.st = some p2 ∧
      p1.st.world.count "vm-1" = 1 ∧ p2.st.world.count "vm-1" = 1) ∧
    (∃ p1 p2, reconcileLoadBalancerIPAddress (scriptedWorld neverFulfilled) demoUtil
        demoCluster (some (demoLB [allocatedDev, staticDev, staticDev])) (St.init []) = some p1 ∧
      reconcileLoadBalancerIPAddress (scriptedWorld neverFulfilled) demoUtil demoCluster
        (some (demoLB [allocatedDev, staticDev, staticDev])) p1.st = some p2 ∧
      p1.st.world.count "lb-1" = 1 ∧ p2.st.world.count "lb-1" = 1) := by
  have h := claim_pending (scriptedWorld neverFulfilled) demoUtil demoCluster []
    (scriptedIpam neverFulfilled) [allocatedDev] [staticDev] staticDev
    (allocatedDev_skip demoUtil) rfl rfl rfl
  refine ⟨?_, ?_, ?_, ?_⟩
  · obtain ⟨p, hp, h1, h2, -, h4, -, h6, -, h8⟩ :=
      h.1 (demoVM [allocatedDev, staticDev, staticDev]) ∅ (St.init []) demoPool [] [] ["vm-1"]
        rfl rfl rfl rfl rfl
    exact ⟨p, hp, h1, h2, h4, h6, h8⟩
  · obtain ⟨p, hp, h1, h2, -, h4, -, h6, -, h8⟩ :=
      h.2.1 (demoLB [allocatedDev, staticDev, staticDev]) demoPool [] [] ["lb-1"]
        rfl rfl rfl rfl
    exact ⟨p, hp, h1, h2, h4, h6, h8⟩
  · obtain ⟨p1, p2, hp1, hp2, -, -, -, -, h1, h2⟩ :=
      h.2.2.1 (demoVM [allocatedDev, staticDev, staticDev]) (fun w n => w.count n) rfl
        (scripted_createIfAbsent neverFulfilled rfl) (fun _ => rfl)
        (fun _ _ => ⟨demoPool, rfl⟩) (fun _ _ => rfl) (fun _ _ => rfl) (by decide)
    exact ⟨p1, p2, hp1, hp2, h1, h2⟩
  · obtain ⟨p1, p2, hp1, hp2, -, -, -, -, h1, h2⟩ :=
      h.2.2.2 (demoLB [allocatedDev, staticDev, staticDev]) (fun w n => w.count n) rfl
        (scripted_createIfAbsent neverFulfilled rfl)
        (fun _ _ => ⟨demoPool, rfl⟩) (fun _ _ => rfl) (fun _ _ => rfl) (by decide)
    exact ⟨p1, p2, hp1, hp2, h1, h2⟩

/-! ## C10: the selector labels -/

/-- The loop `for k, v := range src { labels[k] = v }` leaves a map in which the
entries of `src` override those of `labels`. -/
theorem foldl_insert_lookup (l : List (Sigma fun _ : String => String)) :
    ∀ (_ : l.NodupKeys) (acc : Labels) (k : String),
      (l.foldl (fun acc e => acc.insert e.1 e.2) acc).lookup k =
        match List.dlookup k l with
        | some v => some v
        | none => acc.lookup k := by
  induction l with
  | nil => intro _ acc k; simp
  | cons e t ih =>
    intro hnd acc k
    obtain ⟨a, b⟩ := e
    rw [List.nodupKeys_cons] at hnd
    obtain ⟨ha, ht⟩ := hnd
    rw [List.foldl_cons, ih ht]
    by_cases hk : k = a
    · subst hk
      have hnone : List.dlookup k t = none := List.dlookup_eq_none.2 ha
      rw [hnone, List.dlookup_cons_eq]
      simp [AList.lookup_insert]
    · rw [List.dlookup_cons_ne _ _ hk]
      cases List.dlookup k t with
      | some v => rfl
      | none => simp [AList.lookup_insert_ne hk]

theorem rangeAssign_lookup (src labels : Labels) (k : String) :
    (rangeAssign src labels).lookup k =
      match src.lookup k with
      | some v => some v
      | none => labels.lookup k :=
  foldl_insert_lookup src.entries src.nodupKeys labels k

theorem rangeAssign_empty_lookup (src : Labels) (k : String) :
    (rangeAssign src ∅).lookup k = src.lookup k := by
  rw [rangeAssign_lookup]
  cases src.lookup k <;> simp

/-- What `getMatchLabels` returns for a machine that is not a control-plane
member: the machine's labels, with no call. -/
theorem getMatchLabels_worker (c : Client σ) (u : Util) (clusterMeta : ObjectMeta)
    (vm : VSphereMachine) (s : St σ) (h : u.IsControlPlaneMachine vm = false) :
    getMatchLabels c u clusterMeta vm s = some (rangeAssign vm.ObjectMeta.Labels ∅, s) := by
  simp [getMatchLabels, h, GetObjLabels]

/-- What `getMatchLabels` returns for a control-plane member when the list
returns at least one candidate: the first candidate's template is looked up. -/
theorem getMatchLabels_controlPlane (c : Client σ) (u : Util) (clusterMeta : ObjectMeta)
    (vm : VSphereMachine) (s : St σ) (kcp : KubeadmControlPlane)
    (rest : List KubeadmControlPlane) (w1 : σ) (h : u.IsControlPlaneMachine vm = true)
    (hlist : c.List vm.ObjectMeta.Namespace (AList.singleton u.ClusterNameKey clusterMeta.Name)
      s.world = (.ok (kcp :: rest), w1)) :
    getMatchLabels c u clusterMeta vm s =
      some (match (c.Get ⟨vm.ObjectMeta.Namespace, kcp.InfrastructureTemplate⟩ w1).1 with
        | .error _ => rangeAssign vm.ObjectMeta.Labels ∅
        | .ok tmpl => rangeAssign tmpl.ObjectMeta.Labels (rangeAssign vm.ObjectMeta.Labels ∅),
        ⟨(c.Get ⟨vm.ObjectMeta.Namespace, kcp.InfrastructureTemplate⟩ w1).2,
          s.log ++ [Event.List vm.ObjectMeta.Namespace
              (AList.singleton u.ClusterNameKey clusterMeta.Name) (.ok (kcp :: rest)),
            Event.Get ⟨vm.ObjectMeta.Namespace, kcp.InfrastructureTemplate⟩
              (c.Get ⟨vm.ObjectMeta.Namespace, kcp.InfrastructureTemplate⟩ w1).1]⟩) := by
  simp only [getMatchLabels, h, if_true, callList, hlist, callGet, GetObjLabels]
  rcases hg : c.Get ⟨vm.ObjectMeta.Namespace, kcp.InfrastructureTemplate⟩ w1 with ⟨r, w2⟩
  cases r <;> simp

/-- C10 (selector labels are a union): for a machine that is not a control-plane
member `getMatchLabels` returns, with no call, a label set that holds exactly
the machine's own labels; for a control-plane member whose list returns a
candidate and whose template is found, it returns a label set whose keys are
exactly the keys of the machine's labels together with those of the template's
labels, every template label carrying the template's value and every label the
template lacks carrying the machine's value. The label sets of the machine and
of the template are values that the function only reads: all its writes go to a
fresh map. -/
theorem selector_labels_union (c : Client σ) (u : Util) (clusterMeta : ObjectMeta)
    (vm : VSphereMachine) (s : St σ) :
    (u.IsControlPlaneMachine vm = false →
      ∃ labels, getMatchLabels c u clusterMeta vm s = some (labels, s) ∧
        (∀ k, k ∈ labels ↔ k ∈ vm.ObjectMeta.Labels) ∧
        ∀ k, labels.lookup k = vm.ObjectMeta.Labels.lookup k) ∧
    (∀ (kcp : KubeadmControlPlane) (rest : List KubeadmControlPlane)
      (tmpl : VSphereMachineTemplate) (w1 w2 : σ),
      u.IsControlPlaneMachine vm = true →
      c.List vm.ObjectMeta.Namespace (AList.singleton u.ClusterNameKey clusterMeta.Name)
        s.world = (.ok (kcp :: rest), w1) →
      c.Get ⟨vm.ObjectMeta.Namespace, kcp.InfrastructureTemplate⟩ w1 = (.ok tmpl, w2) →
      ∃ labels s2, getMatchLabels c u clusterMeta vm s = some (labels, s2) ∧ s2.world = w2 ∧
        (∀ k, k ∈ labels ↔ k ∈ vm.ObjectMeta.Labels ∨ k ∈ tmpl.ObjectMeta.Labels) ∧
        (∀ k v, tmpl.ObjectMeta.Labels.lookup k = some v → labels.lookup k = some v) ∧
        (∀ k, k ∉ tmpl.ObjectMeta.Labels →
          labels.lookup k = vm.ObjectMeta.Labels.lookup k)) := by
  constructor
  · intro h
    refine ⟨_, getMatchLabels_worker c u clusterMeta vm s h, ?_, rangeAssign_empty_lookup _⟩
    intro k
    rw [← AList.lookup_isSome, ← AList.lookup_isSome, rangeAssign_empty_lookup]
  · intro kcp rest tmpl w1 w2 h hlist hget
    refine ⟨_, _, getMatchLabels_controlPlane c u clusterMeta vm s kcp rest w1 h hlist, ?_, ?_,
      ?_, ?_⟩
    · rw [hget]
    · intro k
      rw [hget]
      simp only
      rw [← AList.lookup_isSome, ← AList.lookup_isSome, ← AList.lookup_isSome,
        rangeAssign_lookup, rangeAssign_empty_lookup]
      cases tmpl.ObjectMeta.Labels.lookup k <;> simp
    · intro k v hv
      rw [hget]
      simp only
      rw [rangeAssign_lookup, hv]
    · intro k hk
      rw [hget]
      simp only
      rw [rangeAssign_lookup, AList.lookup_eq_none.2 hk, rangeAssign_empty_lookup]

/-- C10 at a worker machine with no label and at a control-plane machine with
the labels `zone=a` and the control-plane label, whose template carries `zone=b`
and `pool=cp`: the selector carries `zone=b`, `pool=cp` and the control-plane
label. -/
theorem selector_labels_union_witness :
    (∃ labels, getMatchLabels (scriptedClient labelled) demoUtil demoCluster
        (demoVM [staticDev]) (St.init []) = some (labels, St.init []) ∧
      (∀ k, k ∈ labels ↔ k ∈ (demoVM [staticDev]).ObjectMeta.Labels) ∧
      ∀ k, labels.lookup k = (demoVM [staticDev]).ObjectMeta.Labels.lookup k) ∧
    (∃ labels s2, getMatchLabels (scriptedClient labelled) demoUtil demoCluster
        (demoCP [staticDev]) (St.init []) = some (labels, s2) ∧ s2.world = [] ∧
      (∀ k, k ∈ labels ↔ k ∈ cpLabels ∨ k ∈ tmplLabels) ∧
      (∀ k v, tmplLabels.lookup k = some v → labels.lookup k = some v) ∧
      (∀ k, k ∉ tmplLabels → labels.lookup k = cpLabels.lookup k) ∧
      labels.lookup "zone" = some "b" ∧ labels.lookup "pool" = some "cp" ∧
      labels.lookup "cluster.x-k8s.io/control-plane" = some "") := by
  refine ⟨(selector_labels_union (scriptedClient labelled) demoUtil demoCluster
    (demoVM [staticDev]) (St.init [])).1 rfl, ?_⟩
  obtain ⟨labels, s2, h, h1, h2, h3, h4⟩ :=
    (selector_labels_union (scriptedClient labelled) demoUtil demoCluster
      (demoCP [staticDev]) (St.init [])).2 { Name := "kcp", InfrastructureTemplate := "tmpl" } []
      demoTemplate [] [] rfl rfl rfl
  refine ⟨labels, s2, h, h1, h2, h3, h4, h3 "zone" "b" rfl, h3 "pool" "cp" rfl, ?_⟩
  rw [h4 "cluster.x-k8s.io/control-plane" (by decide)]
  rfl

/-! ## C9: the empty candidate list -/

/-- C9 fails on the code: for a control-plane machine with a static device that
has no address, when the control-plane list succeeds with zero candidates,
`getMatchLabels` indexes `kcpList.Items[0]` and panics, and so does the pass. -/
theorem no_candidate_faults :
    demoUtil.IsControlPlaneMachine (demoCP [staticDev]) = true ∧
    (scriptedClient noControlPlane).List "default"
      (AList.singleton demoUtil.ClusterNameKey demoCluster.Name) [] = (.ok [], []) ∧
    getMatchLabels (scriptedClient noControlPlane) demoUtil demoCluster (demoCP [staticDev])
      (St.init []) = none ∧
    reconcileVSphereMachineIPAddress (scriptedWorld noControlPlane) demoUtil demoCluster
      (some (demoCP [staticDev])) (St.init []) = none :=
  ⟨rfl, rfl, rfl, rfl⟩

/-- The panic of `getMatchLabels`, in every world: a control-plane member whose
list succeeds with zero candidates. -/
theorem getMatchLabels_noCandidate (c : Client σ) (u : Util) (clusterMeta : ObjectMeta)
    (vm : VSphereMachine) (s : St σ) (w1 : σ) (h : u.IsControlPlaneMachine vm = true)
    (hlist : c.List vm.ObjectMeta.Namespace (AList.singleton u.ClusterNameKey clusterMeta.Name)
      s.world = (.ok [], w1)) :
    getMatchLabels c u clusterMeta vm s = none := by
  simp [getMatchLabels, h, callList, hlist]

/-- What `getMatchLabels` returns for a control-plane member when the list
fails: the machine's labels. -/
theorem getMatchLabels_listFailed (c : Client σ) (u : Util) (clusterMeta : ObjectMeta)
    (vm : VSphereMachine) (s : St σ) (e : Err) (w1 : σ)
    (h : u.IsControlPlaneMachine vm = true)
    (hlist : c.List vm.ObjectMeta.Namespace (AList.singleton u.ClusterNameKey clusterMeta.Name)
      s.world = (.error e, w1)) :
    getMatchLabels c u clusterMeta vm s =
      some (rangeAssign vm.ObjectMeta.Labels ∅,
        ⟨w1, s.log ++ [Event.List vm.ObjectMeta.Namespace
          (AList.singleton u.ClusterNameKey clusterMeta.Name) (.error e)]⟩) := by
  simp [getMatchLabels, h, callList, hlist, GetObjLabels]

/-! ## C7, C8: which failures a pass returns -/

theorem passes_not_propagated (u : Util) (e : Event) (h : e.passes u = true) :
    e.propagated u = false := by
  have := passes_flags u e h
  simp [Event.propagated, this]

theorem Halt.tail_failures {u : Util} {tail : List Event} {res : Result} {err : Option Err}
    (h : Halt u tail res err) :
    tail.any (Event.propagated u) = err.isSome ∧
    (tail.any Event.poolFailed = true → err = none ∧ res = {}) := by
  cases h with
  | invalidIP n p ip e e' hv =>
    simp [Event.propagated, Event.getIPFailed, Event.allocateFailed, Event.patchFailed,
      Event.invalidIP, Event.poolFailed, hv]
  | _ =>
    simp [Event.propagated, Event.getIPFailed, Event.allocateFailed, Event.patchFailed,
      Event.invalidIP, Event.poolFailed]

/-- A pass returns an error exactly when a failure of `GetIP`, `AllocateIP`,
validation or `Patch` is in its log, and then commits nothing; a failed pool
lookup ends it with no error, no requeue and no patch. -/
theorem PassShape.failures {u : Util} {cluster : ObjectMeta} {obj : Object} {w : σ}
    {p : Pass σ} (hs : PassShape u cluster obj (St.init w) p) :
    p.st.log.any (Event.propagated u) = p.err.isSome ∧
    (p.err.isSome = true → p.st.log.any Event.isCommit = false) ∧
    (p.st.log.any Event.poolFailed = true →
      p.err = none ∧ p.res = {} ∧ p.st.log.any Event.isPatch = false ∧ p.obj = some obj) := by
  rcases hs with ⟨-, hst, -, herr⟩ | ⟨ho, pre, tail, hlog, hpass, hhalt⟩ |
    ⟨pre, ds, r, hlog, hpass, -, -, herr, -⟩
  · rw [hst, herr]
    simp [St.init]
  · have hpre1 : pre.any (Event.propagated u) = false :=
      any_false_of_forall _ _ (fun e he => passes_not_propagated u e (hpass e he))
    have hpre2 : pre.any Event.poolFailed = false :=
      any_false_of_forall _ _ (fun e he => (passes_flags u e (hpass e he)).2.2.2.1)
    have hnp : p.st.log.any Event.isPatch = false := by
      refine any_false_of_forall _ _ (fun e he => ?_)
      rw [hlog] at he
      simp only [St.init, List.nil_append, List.mem_append] at he
      rcases he with he | he
      · exact (passes_flags u e (hpass e he)).1
      · exact hhalt.no_patch e he
    have hnc : p.st.log.any Event.isCommit = false := by
      refine any_false_of_forall _ _ (fun e he => ?_)
      have := (List.any_eq_false.1 hnp) e he
      cases e <;> simp_all [Event.isPatch, Event.isCommit]
    rw [hlog]
    simp only [St.init, List.nil_append, List.any_append, hpre1, hpre2, Bool.false_or]
    refine ⟨hhalt.tail_failures.1, fun _ => ?_, fun h => ?_⟩
    · rw [hlog] at hnc
      simpa [St.init] using hnc
    · obtain ⟨h1, h2⟩ := hhalt.tail_failures.2 h
      rw [hlog] at hnp
      exact ⟨h1, h2, by simpa [St.init, hpre2] using hnp, ho⟩
  · have hpre1 : pre.any (Event.propagated u) = false :=
      any_false_of_forall _ _ (fun e he => passes_not_propagated u e (hpass e he))
    have hpre2 : pre.any Event.poolFailed = false :=
      any_false_of_forall _ _ (fun e he => (passes_flags u e (hpass e he)).2.2.2.1)
    have hpre3 : pre.any Event.isCommit = false :=
      any_false_of_forall _ _ (fun e he => (passes_flags u e (hpass e he)).2.1)
    rw [hlog, herr]
    simp only [St.init, List.nil_append, List.any_append, hpre1, hpre2, hpre3, Bool.false_or,
      List.any_cons, List.any_nil, Bool.or_false]
    refine ⟨?_, ?_, ?_⟩
    · cases r <;> simp [Event.propagated, Event.getIPFailed, Event.allocateFailed,
        Event.patchFailed, Event.invalidIP]
    · intro hr
      cases r with
      | none => simp at hr
      | some e => rfl
    · intro h
      simp [Event.poolFailed] at h

/-- C7 as stated fails: a load balancer whose pool lookup fails, and a
control-plane machine whose template lookup fails; neither pass returns an
error, and the second one commits a patch. -/
theorem failures_propagated_counterexample :
    ¬ (∀ p, reconcileLoadBalancerIPAddress (scriptedWorld poolDown) demoUtil demoCluster
        (some (demoLB [staticDev])) (St.init []) = some p →
        p.st.log.any Event.poolFailed = true →
        p.err.isSome = true ∧ p.st.log.any Event.isCommit = false) ∧
    ¬ (∀ p, reconcileVSphereMachineIPAddress (scriptedWorld templateDown) demoUtil demoCluster
        (some (demoCP [staticDev])) (St.init []) = some p →
        p.st.log.any Event.lookupFailed = true →
        p.err.isSome = true ∧ p.st.log.any Event.isCommit = false) :=
  ⟨fun h => absurd (h _ rfl rfl).1 (by decide), fun h => absurd (h _ rfl rfl).1 (by decide)⟩

/-- C7, amended: in every pass of either controller, a failure of `GetIP`, of
`AllocateIP` or of the final `Patch`, or a fulfilled address that fails
validation, makes the pass return a non-nil error, and no patch is committed; a
failure of the pool lookup ends the pass with no error, no requeue and no patch,
the object untouched; a failure of the template lookup (the list or the get)
ends nothing: `getMatchLabels` returns the machine's own labels. -/
theorem failures_propagated_amended (W : World σ) (u : Util) (cluster : ObjectMeta) (w : σ) :
    (∀ (vm : VSphereMachine) (p : Pass σ),
      reconcileVSphereMachineIPAddress W u cluster (some vm) (St.init w) = some p →
      (p.st.log.any (Event.propagated u) = true →
        p.err.isSome = true ∧ p.st.log.any Event.isCommit = false) ∧
      (p.st.log.any Event.poolFailed = true →
        p.err = none ∧ p.res = {} ∧ p.st.log.any Event.isPatch = false ∧
        p.obj = some (.VSphereMachine vm))) ∧
    (∀ (lb : HAProxyLoadBalancer) (p : Pass σ),
      reconcileLoadBalancerIPAddress W u cluster (some lb) (St.init w) = some p →
      (p.st.log.any (Event.propagated u) = true →
        p.err.isSome = true ∧ p.st.log.any Event.isCommit = false) ∧
      (p.st.log.any Event.poolFailed = true →
        p.err = none ∧ p.res = {} ∧ p.st.log.any Event.isPatch = false ∧
        p.obj = some (.HAProxyLoadBalancer lb))) ∧
    (∀ (vm : VSphereMachine) (s : St σ), u.IsControlPlaneMachine vm = true →
      (∀ e w1, W.Client.List vm.ObjectMeta.Namespace
          (AList.singleton u.ClusterNameKey cluster.Name) s.world = (.error e, w1) →
        ∃ labels s1, getMatchLabels W.Client u cluster vm s = some (labels, s1) ∧
          ∀ k, labels.lookup k = vm.ObjectMeta.Labels.lookup k) ∧
      (∀ kcp rest e w1 w2, W.Client.List vm.ObjectMeta.Namespace
          (AList.singleton u.ClusterNameKey cluster.Name) s.world = (.ok (kcp :: rest), w1) →
        W.Client.Get ⟨vm.ObjectMeta.Namespace, kcp.InfrastructureTemplate⟩ w1 = (.error e, w2) →
        ∃ labels s1, getMatchLabels W.Client u cluster vm s = some (labels, s1) ∧
          ∀ k, labels.lookup k = vm.ObjectMeta.Labels.lookup k)) := by
  refine ⟨?_, ?_, ?_⟩
  · intro vm p h
    obtain ⟨h1, h2, h3⟩ := (reconcileVSphereMachineIPAddress_shape W u cluster vm _ p h).failures
    exact ⟨fun hf => ⟨h1 ▸ hf, h2 (h1 ▸ hf)⟩, h3⟩
  · intro lb p h
    obtain ⟨h1, h2, h3⟩ := (reconcileLoadBalancerIPAddress_shape W u cluster lb _ p h).failures
    exact ⟨fun hf => ⟨h1 ▸ hf, h2 (h1 ▸ hf)⟩, h3⟩
  · intro vm s hcp
    constructor
    · intro e w1 hlist
      exact ⟨_, _, getMatchLabels_listFailed W.Client u cluster vm s e w1 hcp hlist,
        rangeAssign_empty_lookup _⟩
    · intro kcp rest e w1 w2 hlist hget
      refine ⟨_, _, getMatchLabels_controlPlane W.Client u cluster vm s kcp rest w1 hcp hlist, ?_⟩
      intro k
      rw [hget]
      exact rangeAssign_empty_lookup _ k

/-- C7, amended, at a machine whose `GetIP` fails, a load balancer whose pool
lookup fails, and a control-plane machine whose list or template get fails. -/
theorem failures_propagated_amended_witness :
    (∃ p, reconcileVSphereMachineIPAddress (scriptedWorld getIPDown) demoUtil demoCluster
        (some (demoVM [staticDev])) (St.init []) = some p ∧
      p.st.log.any (Event.propagated demoUtil) = true ∧
      p.err.isSome = true ∧ p.st.log.any Event.isCommit = false) ∧
    (∃ p, reconcileVSphereMachineIPAddress (scriptedWorld poolDown) demoUtil demoCluster
        (some (demoVM [staticDev])) (St.init []) = some p ∧
      p.st.log.any Event.poolFailed = true ∧
      p.err = none ∧ p.res = {} ∧ p.st.log.any Event.isPatch = false ∧
      p.obj = some (.VSphereMachine (demoVM [staticDev]))) ∧
    (∃ p, reconcileLoadBalancerIPAddress (scriptedWorld getIPDown) demoUtil demoCluster
        (some (demoLB [staticDev])) (St.init []) = some p ∧
      p.st.log.any (Event.propagated demoUtil) = true ∧
      p.err.isSome = true ∧ p.st.log.any Event.isCommit = false) ∧
    (∃ p, reconcileLoadBalancerIPAddress (scriptedWorld poolDown) demoUtil demoCluster
        (some (demoLB [staticDev])) (St.init []) = some p ∧
      p.st.log.any Event.poolFailed = true ∧
      p.err = none ∧ p.res = {} ∧ p.st.log.any Event.isPatch = false ∧
      p.obj = some (.HAProxyLoadBalancer (demoLB [staticDev]))) ∧
    (∃ labels s1, getMatchLabels (scriptedWorld listDown).Client demoUtil demoCluster
        (demoCP [staticDev]) (St.init []) = some (labels, s1) ∧
      ∀ k, labels.lookup k = (demoCP [staticDev]).ObjectMeta.Labels.lookup k) ∧
    (∃ labels s1, getMatchLabels (scriptedWorld templateDown).Client demoUtil demoCluster
        (demoCP [staticDev]) (St.init []) = some (labels, s1) ∧
      ∀ k, labels.lookup k = (demoCP [staticDev]).ObjectMeta.Labels.lookup k) :=
  ⟨⟨_, rfl, rfl,
      ((failures_propagated_amended (scriptedWorld getIPDown) demoUtil demoCluster []).1
        (demoVM [staticDev]) _ rfl).1 rfl⟩,
   ⟨_, rfl, rfl,
      ((failures_propagated_amended (scriptedWorld poolDown) demoUtil demoCluster []).1
        (demoVM [staticDev]) _ rfl).2 rfl⟩,
   ⟨_, rfl, rfl,
      ((failures_propagated_amended (scriptedWorld getIPDown) demoUtil demoCluster []).2.1
        (demoLB [staticDev]) _ rfl).1 rfl⟩,
   ⟨_, rfl, rfl,
      ((failures_propagated_amended (scriptedWorld poolDown) demoUtil demoCluster []).2.1
        (demoLB [staticDev]) _ rfl).2 rfl⟩,
   ((failures_propagated_amended (scriptedWorld listDown) demoUtil demoCluster []).2.2
      (demoCP [staticDev]) (St.init []) rfl).1 "list failed" [] rfl,
   ((failures_propagated_amended (scriptedWorld templateDown) demoUtil demoCluster []).2.2
      (demoCP [staticDev]) (St.init []) rfl).2
      { Name := "kcp", InfrastructureTemplate := "tmpl" } [] "template not found" [] [] rfl rfl⟩

/-- C8 as stated fails: a control-plane machine with a static device that has no
address, in a world whose control-plane list returns two candidates; the pass
returns no error and commits a patch. -/
theorem ambiguous_template_counterexample :
    (scriptedClient twoControlPlanes).List "default"
      (AList.singleton demoUtil.ClusterNameKey demoCluster.Name) [] =
      (.ok [{ Name := "kcp-a", InfrastructureTemplate := "tmpl-a" },
        { Name := "kcp-b", InfrastructureTemplate := "tmpl-b" }], []) ∧
    ¬ (∀ p, reconcileVSphereMachineIPAddress (scriptedWorld twoControlPlanes) demoUtil
        demoCluster (some (demoCP [staticDev])) (St.init []) = some p →
        p.err.isSome = true ∧ p.st.log.any Event.isPatch = false) :=
  ⟨rfl, fun h => absurd (h _ rfl).1 (by decide)⟩

/-- C8, amended: for every control-plane machine, when the lookup of the
controlling control-plane object returns two or more candidates,
`getMatchLabels` returns no error and does not panic: it takes the first
candidate, gets that candidate's infrastructure template, and returns the
machine's labels overridden by the labels of that template (the machine's labels
alone when the get fails). A pass returns an error only when `GetIP`,
`AllocateIP`, validation or `Patch` fails. -/
theorem ambiguous_template_amended (W : World σ) (u : Util) (cluster : ObjectMeta)
    (vm : VSphereMachine) :
    (∀ (s : St σ) (kcp kcp2 : KubeadmControlPlane) (rest : List KubeadmControlPlane) (w1 : σ),
      u.IsControlPlaneMachine vm = true →
      W.Client.List vm.ObjectMeta.Namespace (AList.singleton u.ClusterNameKey cluster.Name)
        s.world = (.ok (kcp :: kcp2 :: rest), w1) →
      ∃ labels s2, getMatchLabels W.Client u cluster vm s = some (labels, s2) ∧
        s2.log = s.log ++ [Event.List vm.ObjectMeta.Namespace
            (AList.singleton u.ClusterNameKey cluster.Name) (.ok (kcp :: kcp2 :: rest)),
          Event.Get ⟨vm.ObjectMeta.Namespace, kcp.InfrastructureTemplate⟩
            (W.Client.Get ⟨vm.ObjectMeta.Namespace, kcp.InfrastructureTemplate⟩ w1).1] ∧
        (∀ tmpl, (W.Client.Get ⟨vm.ObjectMeta.Namespace, kcp.InfrastructureTemplate⟩ w1).1
            = .ok tmpl →
          ∀ k, labels.lookup k =
            match tmpl.ObjectMeta.Labels.lookup k with
            | some v => some v
            | none => vm.ObjectMeta.Labels.lookup k) ∧
        (∀ e, (W.Client.Get ⟨vm.ObjectMeta.Namespace, kcp.InfrastructureTemplate⟩ w1).1
            = .error e →
          ∀ k, labels.lookup k = vm.ObjectMeta.Labels.lookup k)) ∧
    (∀ (w : σ) (p : Pass σ),
      reconcileVSphereMachineIPAddress W u cluster (some vm) (St.init w) = some p →
      p.err.isSome = p.st.log.any (Event.propagated u)) := by
  constructor
  · intro s kcp kcp2 rest w1 hcp hlist
    refine ⟨_, _, getMatchLabels_controlPlane W.Client u cluster vm s kcp (kcp2 :: rest) w1 hcp
      hlist, rfl, ?_, ?_⟩
    · intro tmpl ht k
      rw [ht]
      simp only
      rw [rangeAssign_lookup, rangeAssign_empty_lookup]
    · intro e he k
      rw [he]
      exact rangeAssign_empty_lookup _ k
  · intro w p h
    exact ((reconcileVSphereMachineIPAddress_shape W u cluster vm _ p h).failures.1).symm

/-- C8, amended, at the control-plane machine of the examples with two
candidates: the template of the first candidate is looked up, and the pass
returns no error. -/
theorem ambiguous_template_amended_witness :
    (∃ labels s2, getMatchLabels (scriptedWorld twoControlPlanes).Client demoUtil demoCluster
        (demoCP [staticDev]) (St.init []) = some (labels, s2) ∧
      s2.log = [Event.List "default" (AList.singleton demoUtil.ClusterNameKey demoCluster.Name)
          (.ok [{ Name := "kcp-a", InfrastructureTemplate := "tmpl-a" },
            { Name := "kcp-b", InfrastructureTemplate := "tmpl-b" }]),
        Event.Get ⟨"default", "tmpl-a"⟩ (.ok demoTemplate)] ∧
      labels.lookup "zone" = some "b") ∧
    (∃ p, reconcileVSphereMachineIPAddress (scriptedWorld twoControlPlanes) demoUtil demoCluster
        (some (demoCP [staticDev])) (St.init []) = some p ∧
      p.err.isSome = p.st.log.any (Event.propagated demoUtil) ∧ p.err = none) := by
  have h := ambiguous_template_amended (scriptedWorld twoControlPlanes) demoUtil demoCluster
    (demoCP [staticDev])
  constructor
  · obtain ⟨labels, s2, h1, h2, h3, -⟩ := h.1 (St.init [])
      { Name := "kcp-a", InfrastructureTemplate := "tmpl-a" }
      { Name := "kcp-b", InfrastructureTemplate := "tmpl-b" } [] [] rfl rfl
    exact ⟨labels, s2, h1, h2, (h3 demoTemplate rfl "zone").trans rfl⟩
  · exact ⟨_, rfl, h.2 [] _ rfl, rfl⟩

end StaticIP
